import Mathlib

/-!
Shallow embedding of the refua-bench execution-and-regression-gating engine
(`metrics.py`, `schema.py`, `runner.py`, `run_artifact.py`, `compare.py`).

Modelling conventions:
* Python floats are modelled as exact rationals (`ℚ`).  IEEE rounding,
  infinities and NaN are outside the model; every `ℚ` is a finite number.
* `math.sqrt` (used only by the `rmse` metric) is floating-point square root,
  which has no exact counterpart on `ℚ`; it is passed in as an abstract
  function parameter `sq : ℚ → ℚ`.  No claim settled here depends on its value.
* Python `None` and JSON `null` are both modelled by `J.null`; `dict.get`
  returning `None` for a missing key is modelled by defaulting to `J.null`.
* Python `random.Random(seed)` is a deterministic stream once the seed is
  fixed; the stream itself is passed in as a parameter
  `gen : Option ℤ → ℕ → ℕ` (seed, draw counter ↦ raw draw), with `none`
  standing for OS-entropy seeding.
* Wall-clock durations (`perf_counter` differences) are modelled as `0`; the
  code only guarantees they are non-negative and they never influence scoring.
* Python `float(s)` on a numeric string would succeed; string-to-number
  coercion is not modelled (`J.str` is never coercible here) and no claim
  settled in this file exercises that path.
-/

namespace RefuaBench

/-- JSON-like opaque values exchanged by the engine.  Python distinguishes
`int` from `float` (the validator insists on real `int`s for counters), so the
model keeps separate constructors. -/
inductive J where
  | null : J
  | bool (b : Bool) : J
  | int (n : ℤ) : J
  | num (q : ℚ) : J
  | str (s : String) : J
  | arr (xs : List J) : J
  | obj (fields : List (String × J)) : J
  deriving Repr

/-- Python `float(value)` coercion: ints, floats and bools coerce; `None`,
lists and dicts raise `TypeError` (modelled as `none`).  Numeric strings are
not modelled (see file header). -/
def J.toFloat : J → Option ℚ
  | .int n => some (n : ℚ)
  | .num q => some q
  | .bool b => some (if b then 1 else 0)
  | _ => none

mutual

/-- Structural equality test on values (used after normalisation). -/
def J.beq : J → J → Bool
  | .null, .null => true
  | .bool a, .bool b => a == b
  | .int a, .int b => a == b
  | .num a, .num b => a == b
  | .str a, .str b => a == b
  | .arr xs, .arr ys => J.beqList xs ys
  | .obj fs, .obj gs => J.beqFields fs gs
  | _, _ => false

/-- Pointwise equality of value lists. -/
def J.beqList : List J → List J → Bool
  | [], [] => true
  | x :: xs, y :: ys => J.beq x y && J.beqList xs ys
  | _, _ => false

/-- Pointwise equality of object field lists. -/
def J.beqFields : List (String × J) → List (String × J) → Bool
  | [], [] => true
  | (k, v) :: fs, (l, w) :: gs => k == l && J.beq v w && J.beqFields fs gs
  | _, _ => false

end

mutual

/-- Normalisation realising Python `==` on the values the engine compares:
`True == 1`, `1 == 1.0`, lists compare pointwise.  Dict comparison is modelled
as order-sensitive (Python ignores key order; no settled claim compares
mappings). -/
def J.norm : J → J
  | .null => .null
  | .bool b => .int (if b then 1 else 0)
  | .int n => .int n
  | .num q => if q.den = 1 then .int q.num else .num q
  | .str s => .str s
  | .arr xs => .arr (J.normList xs)
  | .obj fs => .obj (J.normFields fs)

/-- Pointwise normalisation of a list of values. -/
def J.normList : List J → List J
  | [] => []
  | x :: xs => J.norm x :: J.normList xs

/-- Pointwise normalisation of the values of an object. -/
def J.normFields : List (String × J) → List (String × J)
  | [] => []
  | (k, v) :: fs => (k, J.norm v) :: J.normFields fs

end

/-- Python `==` between two opaque values (via normalisation). -/
def pyEq (a b : J) : Bool := J.beq (J.norm a) (J.norm b)

/-- Lookup in a mapping modelled as an association list (payload objects are
built with unique keys, mirroring Python dicts). -/
def jLookup (fields : List (String × J)) (key : String) : Option J :=
  (fields.find? (fun p => p.1 == key)).map (fun p => p.2)

/-- Python `dict.get(key)`: missing keys yield `None` (`J.null`). -/
def jGetD (fields : List (String × J)) (key : String) : J :=
  (jLookup fields key).getD J.null

/-! ### Metric engine (`metrics.py`) -/

/-- The `_METRIC_DIRECTIONS` table; unknown metrics raise `ValueError`. -/
def metricDirection (metric : String) : Except String String :=
  if metric = "mae" then .ok "lower"
  else if metric = "rmse" then .ok "lower"
  else if metric = "accuracy" then .ok "higher"
  else if metric = "exact_match" then .ok "higher"
  else if metric = "f1" then .ok "higher"
  else .error ("Unsupported metric: " ++ metric)

/-- The `_to_float_list` helper: coerce every value in order, raising at the
first non-numeric one. -/
def toFloatList : List J → Except String (List ℚ)
  | [] => .ok []
  | v :: rest =>
      match v.toFloat with
      | some q =>
          match toFloatList rest with
          | .ok qs => .ok (q :: qs)
          | .error msg => .error msg
      | none => .error "Expected numeric value"

/-- The body of the `_f1_binary` counting loop: one `(exp, pred)` pair updates
the `(TP, FP, FN)` accumulator. -/
def f1Step (positiveLabel : J) (acc : ℕ × ℕ × ℕ) (ep : J × J) : ℕ × ℕ × ℕ :=
  let expPos := pyEq ep.1 positiveLabel
  let predPos := pyEq ep.2 positiveLabel
  if expPos && predPos then (acc.1 + 1, acc.2.1, acc.2.2)
  else if !expPos && predPos then (acc.1, acc.2.1 + 1, acc.2.2)
  else if expPos && !predPos then (acc.1, acc.2.1, acc.2.2 + 1)
  else acc

/-- Confusion counts (TP, FP, FN) of `_f1_binary`, accumulated by the same
single pass over the zipped sequences as the Python loop. -/
def f1Counts (positiveLabel : J) (pairs : List (J × J)) : ℕ × ℕ × ℕ :=
  pairs.foldl (f1Step positiveLabel) (0, 0, 0)

/-- The `_f1_binary` metric. -/
def f1Binary (expected predicted : List J) (positiveLabel : J) : ℚ :=
  let counts := f1Counts positiveLabel (expected.zip predicted)
  let tp := counts.1
  let fp := counts.2.1
  let fn := counts.2.2
  if tp = 0 ∧ fp = 0 ∧ fn = 0 then 1
  else
    let precisionDenom := tp + fp
    let recallDenom := tp + fn
    let precisionScore : ℚ := if precisionDenom = 0 then 0 else (tp : ℚ) / (precisionDenom : ℚ)
    let recallScore : ℚ := if recallDenom = 0 then 0 else (tp : ℚ) / (recallDenom : ℚ)
    if precisionScore + recallScore = 0 then 0
    else 2 * precisionScore * recallScore / (precisionScore + recallScore)

/-- The `compute_metric` entry point.  `sq` abstracts `math.sqrt`. -/
def computeMetric (sq : ℚ → ℚ) (metric : String)
    (expectedValues predictedValues : List J) (positiveLabel : J) :
    Except String ℚ :=
  if expectedValues.length ≠ predictedValues.length then
    .error "expected_values and predicted_values must have equal length"
  else if expectedValues.isEmpty then
    .error "Cannot compute a metric on empty values"
  else if metric = "mae" then
    match toFloatList expectedValues, toFloatList predictedValues with
    | .ok e, .ok p =>
        .ok (((e.zip p).map (fun x => |x.1 - x.2|)).sum / (expectedValues.length : ℚ))
    | .error msg, _ => .error msg
    | _, .error msg => .error msg
  else if metric = "rmse" then
    match toFloatList expectedValues, toFloatList predictedValues with
    | .ok e, .ok p =>
        .ok (sq ((((e.zip p).map (fun x => (x.1 - x.2) ^ 2)).sum) / (expectedValues.length : ℚ)))
    | .error msg, _ => .error msg
    | _, .error msg => .error msg
  else if metric = "accuracy" ∨ metric = "exact_match" then
    .ok ((((expectedValues.zip predictedValues).countP (fun x => pyEq x.1 x.2)) : ℚ) /
      (expectedValues.length : ℚ))
  else if metric = "f1" then
    .ok (f1Binary expectedValues predictedValues positiveLabel)
  else .error ("Unsupported metric: " ++ metric)

/-! ### Quantile helper (`compare.py`, `_quantile`) -/

/-- The `_quantile` function: raises on an empty sample, returns the extreme
order statistics for clamped probabilities, and otherwise interpolates
linearly between the floor and ceil order statistics at `p * (n - 1)`.
Python `sorted` is modelled by insertion sort (both are stable ascending
sorts; on `ℚ` equal elements are indistinguishable). -/
def quantile (values : List ℚ) (probability : ℚ) : Except String ℚ :=
  if values = [] then .error "Cannot compute quantile on empty values"
  else
    let sortedValues := values.insertionSort (· ≤ ·)
    if probability ≤ 0 then .ok (sortedValues.headD 0)
    else if 1 ≤ probability then .ok (sortedValues.getLastD 0)
    else
      let position := probability * ((values.length : ℚ) - 1)
      let lowIndex := (⌊position⌋).toNat
      let highIndex := min (lowIndex + 1) (values.length - 1)
      let fraction := position - (lowIndex : ℚ)
      let lowValue := sortedValues.getD lowIndex 0
      let highValue := sortedValues.getD highIndex 0
      .ok (lowValue + (highValue - lowValue) * fraction)

/-! ### Suite model (`schema.py`) -/

/-- The `BenchmarkCase` dataclass. -/
structure BenchmarkCase where
  case_id : String
  input : List (String × J)
  expected : List (String × J)
  tags : List String
  deriving Repr

/-- The `BenchmarkTask` dataclass. -/
structure BenchmarkTask where
  task_id : String
  metric : String
  prediction_key : String
  expected_key : String
  regression_tolerance : ℚ := 0
  weight : ℚ := 1
  positive_label : J := .int 1
  cases : List BenchmarkCase := []
  deriving Repr

/-- The `BenchmarkSuite` dataclass. -/
structure BenchmarkSuite where
  name : String
  version : String
  description : String
  tasks : List BenchmarkTask
  metadata : List (String × J) := []
  deriving Repr

/-! ### Runner (`runner.py`) -/

/-- The `CaseResult` dataclass.  `expected`/`predicted` hold `J.null` where the
Python fields hold `None`. -/
structure CaseResult where
  case_id : String
  expected : J
  predicted : J
  duration_ms : ℚ
  error : Option String := none
  deriving Repr

/-- The `TaskResult` dataclass. -/
structure TaskResult where
  task_id : String
  metric : String
  direction : String
  score : Option ℚ
  cases_total : ℕ
  case_failures : ℕ
  case_results : List CaseResult
  deriving Repr

/-- The run summary dict assembled by `run_benchmark`. -/
structure RunSummary where
  tasks_total : ℕ
  tasks_with_errors : ℕ
  cases_total : ℕ
  case_failures : ℕ
  all_cases_succeeded : Bool
  deriving Repr

/-- The `BenchmarkRun` dataclass. -/
structure BenchmarkRun where
  run_id : String
  suite_name : String
  suite_version : String
  adapter : String
  started_at : String
  finished_at : String
  summary : RunSummary
  task_results : List TaskResult
  provenance : List (String × J) := []
  deriving Repr

/-- The `ModelAdapter` capability: a name and a fallible per-case prediction
function returning a mapping (any Python exception is modelled as `.error`). -/
structure ModelAdapter where
  name : String
  predict : BenchmarkTask → BenchmarkCase → Except String (List (String × J))

/-- One iteration of the per-case loop of `_run_task`: produces the
`CaseResult` and, when the case succeeded, the `(expected, predicted)` pair
that gets included in metric computation.  Durations are modelled as `0`. -/
def runCase (task : BenchmarkTask) (adapter : ModelAdapter) (bc : BenchmarkCase) :
    CaseResult × Option (J × J) :=
  let expected := jGetD bc.expected task.expected_key
  match adapter.predict task bc with
  | .error e =>
      ({ case_id := bc.case_id, expected := expected, predicted := J.null,
         duration_ms := 0, error := some e }, none)
  | .ok output =>
      match jLookup output task.prediction_key with
      | none =>
          ({ case_id := bc.case_id, expected := expected, predicted := J.null,
             duration_ms := 0,
             error := some ("Missing prediction key " ++ task.prediction_key ++
               " in adapter output for case " ++ bc.case_id) }, none)
      | some predicted =>
          ({ case_id := bc.case_id, expected := expected, predicted := predicted,
             duration_ms := 0, error := none }, some (expected, predicted))

/-- The `_run_task` operation.  The per-case loop accumulates case results,
failure count and the included pairs; the task score is computed over the
included pairs (errors from `compute_metric` propagate and abort the run),
then `metric_direction` is evaluated while building the `TaskResult`. -/
def runTask (sq : ℚ → ℚ) (task : BenchmarkTask) (adapter : ModelAdapter) :
    Except String TaskResult :=
  let outcomes := task.cases.map (runCase task adapter)
  let caseResults := outcomes.map (fun o => o.1)
  let pairs := outcomes.filterMap (fun o => o.2)
  let expectedValues := pairs.map (fun p => p.1)
  let predictedValues := pairs.map (fun p => p.2)
  let caseFailures := caseResults.countP (fun r => r.error.isSome)
  let scoreE : Except String (Option ℚ) :=
    if expectedValues.isEmpty then .ok none
    else
      match computeMetric sq task.metric expectedValues predictedValues task.positive_label with
      | .ok s => .ok (some s)
      | .error msg => .error msg
  match scoreE with
  | .error msg => .error msg
  | .ok score =>
      match metricDirection task.metric with
      | .error msg => .error msg
      | .ok direction =>
          .ok { task_id := task.task_id, metric := task.metric, direction := direction,
                score := score, cases_total := task.cases.length,
                case_failures := caseFailures, case_results := caseResults }

/-- The task loop of `run_benchmark`, accumulating task results in order (any
task error aborts the whole run). -/
def runTasks (sq : ℚ → ℚ) (adapter : ModelAdapter) :
    List BenchmarkTask → Except String (List TaskResult)
  | [] => .ok []
  | task :: rest =>
      match runTask sq task adapter with
      | .error msg => .error msg
      | .ok result =>
          match runTasks sq adapter rest with
          | .error msg => .error msg
          | .ok results => .ok (result :: results)

/-- The `run_benchmark` operation.  The fresh `uuid4().hex` run identifier and
the two `datetime.now(UTC).isoformat()` timestamps are non-deterministic
non-blank strings; they are taken as parameters. -/
def runBenchmark (sq : ℚ → ℚ) (runId startedAt finishedAt : String)
    (suite : BenchmarkSuite) (adapter : ModelAdapter)
    (provenance : List (String × J)) : Except String BenchmarkRun :=
  match runTasks sq adapter suite.tasks with
  | .error msg => .error msg
  | .ok taskResults =>
      let casesTotal := (taskResults.map (fun r => r.cases_total)).sum
      let caseFailures := (taskResults.map (fun r => r.case_failures)).sum
      let tasksWithErrors :=
        taskResults.countP (fun r => decide (0 < r.case_failures) || r.score.isNone)
      .ok { run_id := runId, suite_name := suite.name, suite_version := suite.version,
            adapter := adapter.name, started_at := startedAt, finished_at := finishedAt,
            summary := { tasks_total := suite.tasks.length,
                         tasks_with_errors := tasksWithErrors,
                         cases_total := casesTotal,
                         case_failures := caseFailures,
                         all_cases_succeeded := decide (caseFailures = 0) },
            task_results := taskResults,
            provenance := provenance }

/-- Serialisation of a `CaseResult` as by `dataclasses.asdict` + JSON. -/
def CaseResult.toJ (c : CaseResult) : J :=
  .obj [("case_id", .str c.case_id), ("expected", c.expected),
        ("predicted", c.predicted), ("duration_ms", .num c.duration_ms),
        ("error", match c.error with | none => .null | some e => .str e)]

/-- Serialisation of a `TaskResult`. -/
def TaskResult.toJ (t : TaskResult) : J :=
  .obj [("task_id", .str t.task_id), ("metric", .str t.metric),
        ("direction", .str t.direction),
        ("score", match t.score with | none => .null | some q => .num q),
        ("cases_total", .int t.cases_total), ("case_failures", .int t.case_failures),
        ("case_results", .arr (t.case_results.map CaseResult.toJ))]

/-- Serialisation of the run summary. -/
def RunSummary.toJ (s : RunSummary) : J :=
  .obj [("tasks_total", .int s.tasks_total), ("tasks_with_errors", .int s.tasks_with_errors),
        ("cases_total", .int s.cases_total), ("case_failures", .int s.case_failures),
        ("all_cases_succeeded", .bool s.all_cases_succeeded)]

/-- The `BenchmarkRun.to_dict` serialisation handed to the validator. -/
def BenchmarkRun.toJ (r : BenchmarkRun) : J :=
  .obj [("run_id", .str r.run_id), ("suite_name", .str r.suite_name),
        ("suite_version", .str r.suite_version), ("adapter", .str r.adapter),
        ("started_at", .str r.started_at), ("finished_at", .str r.finished_at),
        ("summary", r.summary.toJ),
        ("task_results", .arr (r.task_results.map TaskResult.toJ)),
        ("provenance", .obj r.provenance)]

/-! ### Run artifact validator (`run_artifact.py`)

The Python validator raises `ValueError` at the first violation; the model
returns `Except.error` with a message carrying the same path information
(message formatting approximates the Python f-strings; the `sorted(...)` of
key lists in messages is kept in source order). -/

/-- The `_TOP_LEVEL_KEYS` whitelist. -/
def topLevelKeys : List String :=
  ["run_id", "suite_name", "suite_version", "adapter", "started_at",
   "finished_at", "summary", "task_results", "provenance"]

/-- The `_SUMMARY_KEYS` whitelist. -/
def summaryKeys : List String :=
  ["tasks_total", "tasks_with_errors", "cases_total", "case_failures",
   "all_cases_succeeded"]

/-- The `_TASK_KEYS` whitelist. -/
def taskKeys : List String :=
  ["task_id", "metric", "direction", "score", "cases_total", "case_failures",
   "case_results"]

/-- The `_CASE_KEYS` whitelist. -/
def caseKeys : List String :=
  ["case_id", "expected", "predicted", "duration_ms", "error"]

/-- The `_require_mapping` helper. -/
def requireMapping (v : J) (path : String) : Except String (List (String × J)) :=
  match v with
  | .obj fields => .ok fields
  | _ => .error (path ++ " must be an object")

/-- The `_require_list` helper. -/
def requireList (v : J) (path : String) : Except String (List J) :=
  match v with
  | .arr xs => .ok xs
  | _ => .error (path ++ " must be a list")

/-- The `_require_non_empty_str` helper (returns the stripped string). -/
def requireNonEmptyStr (v : J) (path : String) : Except String String :=
  match v with
  | .str s =>
      let normalized := s.trim
      if normalized = "" then .error (path ++ " must be a non-empty string")
      else .ok normalized
  | _ => .error (path ++ " must be a string")

/-- The `_require_non_negative_int` helper (`bool` is excluded by having its
own constructor). -/
def requireNonNegativeInt (v : J) (path : String) : Except String ℕ :=
  match v with
  | .int n =>
      if n < 0 then .error (path ++ " must be a non-negative integer")
      else .ok n.toNat
  | _ => .error (path ++ " must be a non-negative integer")

/-- The `_require_bool` helper. -/
def requireBool (v : J) (path : String) : Except String Bool :=
  match v with
  | .bool b => .ok b
  | _ => .error (path ++ " must be a boolean")

/-- The `_require_finite_number` helper; every modelled number is finite. -/
def requireFiniteNumber (v : J) (path : String) : Except String ℚ :=
  match v with
  | .int n => .ok (n : ℚ)
  | .num q => .ok q
  | _ => .error (path ++ " must be a finite number")

/-- The `_require_non_negative_finite_number` helper. -/
def requireNonNegativeFiniteNumber (v : J) (path : String) : Except String ℚ :=
  match requireFiniteNumber v path with
  | .error msg => .error msg
  | .ok numeric =>
      if numeric < 0 then .error (path ++ " must be >= 0")
      else .ok numeric

/-- The `_require_optional_finite_number` helper. -/
def requireOptionalFiniteNumber (v : J) (path : String) : Except String (Option ℚ) :=
  match v with
  | .null => .ok none
  | _ =>
      match requireFiniteNumber v path with
      | .error msg => .error msg
      | .ok q => .ok (some q)

/-- The `_validate_key_set` exact-key-set check. -/
def validateKeySet (fields : List (String × J)) (required : List String)
    (path : String) : Except String Unit :=
  let keys := fields.map (fun p => p.1)
  let missing := required.filter (fun k => !(keys.contains k))
  let extra := keys.filter (fun k => !(required.contains k))
  if missing = [] ∧ extra = [] then .ok ()
  else
    .error (path ++ " has invalid keys (missing=" ++ toString missing ++
      ", extra=" ++ toString extra ++ ")")

/-- The per-case loop body of the validator: walks `case_results`, enforcing
the exact key set, identifier uniqueness, duration and error typing, and
returns the observed failure count. -/
def validateCases (taskPath : String) :
    List J → ℕ → List String → ℕ → Except String ℕ
  | [], _, _, observed => .ok observed
  | caseItem :: rest, caseIndex, seenIds, observed =>
      let casePath := taskPath ++ ".case_results[" ++ toString caseIndex ++ "]"
      match requireMapping caseItem casePath with
      | .error msg => .error msg
      | .ok c =>
          match validateKeySet c caseKeys casePath with
          | .error msg => .error msg
          | .ok _ =>
              match requireNonEmptyStr (jGetD c "case_id") (casePath ++ ".case_id") with
              | .error msg => .error msg
              | .ok caseId =>
                  if seenIds.contains caseId then
                    .error ("Duplicate case_id in " ++ taskPath ++ ": " ++ caseId)
                  else
                    match requireNonNegativeFiniteNumber (jGetD c "duration_ms")
                        (casePath ++ ".duration_ms") with
                    | .error msg => .error msg
                    | .ok _ =>
                        match jGetD c "error" with
                        | .null =>
                            validateCases taskPath rest (caseIndex + 1)
                              (caseId :: seenIds) observed
                        | .str _ =>
                            validateCases taskPath rest (caseIndex + 1)
                              (caseId :: seenIds) (observed + 1)
                        | _ => .error (casePath ++ ".error must be a string or null")

/-- The data the task loop records about each validated task entry. -/
structure TaskCheck where
  task_id : String
  fields : List (String × J)
  score_is_null : Bool
  cases_total : ℕ
  case_failures : ℕ
  deriving Repr

/-- The body of the per-task loop of `validate_run_artifact`. -/
def validateTask (source : String) (taskItem : J) (index : ℕ)
    (seenTaskIds : List String) : Except String TaskCheck :=
  let taskPath := source ++ ".task_results[" ++ toString index ++ "]"
  match requireMapping taskItem taskPath with
  | .error msg => .error msg
  | .ok task =>
      match validateKeySet task taskKeys taskPath with
      | .error msg => .error msg
      | .ok _ =>
          match requireNonEmptyStr (jGetD task "task_id") (taskPath ++ ".task_id") with
          | .error msg => .error msg
          | .ok taskId =>
              if seenTaskIds.contains taskId then
                .error ("Duplicate task_id in " ++ source ++ ": " ++ taskId)
              else
                match requireNonEmptyStr (jGetD task "metric") (taskPath ++ ".metric") with
                | .error msg => .error msg
                | .ok _ =>
                    match requireNonEmptyStr (jGetD task "direction")
                        (taskPath ++ ".direction") with
                    | .error msg => .error msg
                    | .ok direction =>
                        if direction ≠ "higher" ∧ direction ≠ "lower" then
                          .error (taskPath ++ ".direction must be higher or lower")
                        else
                          match requireOptionalFiniteNumber (jGetD task "score")
                              (taskPath ++ ".score") with
                          | .error msg => .error msg
                          | .ok _ =>
                              match requireNonNegativeInt (jGetD task "cases_total")
                                  (taskPath ++ ".cases_total") with
                              | .error msg => .error msg
                              | .ok casesTotal =>
                                  match requireNonNegativeInt (jGetD task "case_failures")
                                      (taskPath ++ ".case_failures") with
                                  | .error msg => .error msg
                                  | .ok caseFailures =>
                                      if casesTotal < caseFailures then
                                        .error (taskPath ++
                                          ".case_failures cannot exceed cases_total")
                                      else
                                        match requireList (jGetD task "case_results")
                                            (taskPath ++ ".case_results") with
                                        | .error msg => .error msg
                                        | .ok caseResults =>
                                            if caseResults.length ≠ casesTotal then
                                              .error (taskPath ++ ".cases_total=" ++
                                                toString casesTotal ++
                                                " does not match len(case_results)=" ++
                                                toString caseResults.length)
                                            else
                                              match validateCases taskPath caseResults 0 [] 0 with
                                              | .error msg => .error msg
                                              | .ok observed =>
                                                  if observed ≠ caseFailures then
                                                    .error (taskPath ++ ".case_failures=" ++
                                                      toString caseFailures ++
                                                      " does not match observed failures " ++
                                                      toString observed)
                                                  else
                                                    .ok { task_id := taskId, fields := task,
                                                          score_is_null :=
                                                            match jGetD task "score" with
                                                            | .null => true
                                                            | _ => false,
                                                          cases_total := casesTotal,
                                                          case_failures := caseFailures }

/-- The per-task loop of `validate_run_artifact`, in order, tracking seen
identifiers for the duplicate check. -/
def validateTasks (source : String) :
    List J → ℕ → List String → Except String (List TaskCheck)
  | [], _, _ => .ok []
  | taskItem :: rest, index, seenTaskIds =>
      match validateTask source taskItem index seenTaskIds with
      | .error msg => .error msg
      | .ok check =>
          match validateTasks source rest (index + 1) (check.task_id :: seenTaskIds) with
          | .error msg => .error msg
          | .ok checks => .ok (check :: checks)

/-- Set equality of two identifier lists (Python compares `set`s). -/
def idSetEq (xs ys : List String) : Bool :=
  xs.all (fun x => ys.contains x) && ys.all (fun y => xs.contains y)

/-- Collection of the stripped case identifiers of a task entry during suite
alignment. -/
def collectCaseIds (source : String) (taskId : String) :
    List J → ℕ → Except String (List String)
  | [], _ => .ok []
  | caseItem :: rest, index =>
      let casePath := source ++ ".task_results[" ++ taskId ++ "].case_results[" ++
        toString index ++ "]"
      match requireMapping caseItem casePath with
      | .error msg => .error msg
      | .ok c =>
          match requireNonEmptyStr (jGetD c "case_id") (casePath ++ ".case_id") with
          | .error msg => .error msg
          | .ok caseId =>
              match collectCaseIds source taskId rest (index + 1) with
              | .error msg => .error msg
              | .ok ids => .ok (caseId :: ids)

/-- The per-task body of `_validate_suite_alignment`. -/
def alignTask (source : String) (t : BenchmarkTask) (fields : List (String × J)) :
    Except String Unit :=
  let base := source ++ ".task_results[" ++ t.task_id ++ "]"
  match requireNonEmptyStr (jGetD fields "metric") (base ++ ".metric") with
  | .error msg => .error msg
  | .ok runMetric =>
      if runMetric ≠ t.metric then
        .error (source ++ " task " ++ t.task_id ++ " metric " ++ runMetric ++
          " does not match suite metric " ++ t.metric)
      else
        match requireNonEmptyStr (jGetD fields "direction") (base ++ ".direction") with
        | .error msg => .error msg
        | .ok runDirection =>
            match metricDirection t.metric with
            | .error msg => .error msg
            | .ok expectedDirection =>
                if runDirection ≠ expectedDirection then
                  .error (source ++ " task " ++ t.task_id ++ " direction " ++
                    runDirection ++ " does not match expected " ++ expectedDirection)
                else
                  match requireList (jGetD fields "case_results") (base ++ ".case_results") with
                  | .error msg => .error msg
                  | .ok runCaseResults =>
                      match collectCaseIds source t.task_id runCaseResults 0 with
                      | .error msg => .error msg
                      | .ok runCaseIds =>
                          if !(idSetEq runCaseIds (t.cases.map (fun c => c.case_id))) then
                            .error (source ++ " task " ++ t.task_id ++
                              " case ids do not match suite")
                          else
                            match requireNonNegativeInt (jGetD fields "cases_total")
                                (base ++ ".cases_total") with
                            | .error msg => .error msg
                            | .ok runCasesTotal =>
                                if runCasesTotal ≠ t.cases.length then
                                  .error (source ++ " task " ++ t.task_id ++
                                    " cases_total=" ++ toString runCasesTotal ++
                                    " does not match suite case count " ++
                                    toString t.cases.length)
                                else .ok ()

/-- The loop over suite tasks of `_validate_suite_alignment`.  The
`task_map[task.task_id]` dict access cannot fail once the identifier sets were
found equal; the unreachable miss is mapped to an error. -/
def alignTasks (source : String) (checks : List TaskCheck) :
    List BenchmarkTask → Except String Unit
  | [] => .ok ()
  | t :: rest =>
      match checks.find? (fun c => c.task_id == t.task_id) with
      | none => .error (source ++ " task " ++ t.task_id ++ " missing from task map")
      | some check =>
          match alignTask source t check.fields with
          | .error msg => .error msg
          | .ok _ => alignTasks source checks rest

/-- The `_validate_suite_alignment` operation. -/
def validateSuiteAlignment (suite : BenchmarkSuite) (source : String)
    (suiteName suiteVersion : String) (checks : List TaskCheck) :
    Except String Unit :=
  if suiteName ≠ suite.name then
    .error (source ++ ".suite_name=" ++ suiteName ++
      " does not match suite.name=" ++ suite.name)
  else if suiteVersion ≠ suite.version then
    .error (source ++ ".suite_version=" ++ suiteVersion ++
      " does not match suite.version=" ++ suite.version)
  else if !(idSetEq (checks.map (fun c => c.task_id))
      (suite.tasks.map (fun t => t.task_id))) then
    .error (source ++ ".task_results do not match suite tasks")
  else alignTasks source checks suite.tasks

/-- The summary cross-consistency block at the end of `validate_run_artifact`,
followed by the optional suite alignment and the re-assembled result dict. -/
def validateCross (run : List (String × J)) (source : String)
    (suite : Option BenchmarkSuite) (suiteName suiteVersion : String)
    (summaryTasksTotal summaryTasksWithErrors summaryCasesTotal
      summaryCaseFailures : ℕ) (summaryAllCasesSucceeded : Bool)
    (taskResultsRaw : List J) (checks : List TaskCheck) : Except String J :=
  let caseTotalsSum := (checks.map (fun c => c.cases_total)).sum
  let caseFailuresSum := (checks.map (fun c => c.case_failures)).sum
  let tasksWithErrors :=
    checks.countP (fun c => decide (0 < c.case_failures) || c.score_is_null)
  if summaryTasksTotal ≠ taskResultsRaw.length then
    .error (source ++ ".summary.tasks_total=" ++ toString summaryTasksTotal ++
      " does not match len(task_results)=" ++ toString taskResultsRaw.length)
  else if summaryCasesTotal ≠ caseTotalsSum then
    .error (source ++ ".summary.cases_total=" ++ toString summaryCasesTotal ++
      " does not match sum(task.cases_total)=" ++ toString caseTotalsSum)
  else if summaryCaseFailures ≠ caseFailuresSum then
    .error (source ++ ".summary.case_failures=" ++ toString summaryCaseFailures ++
      " does not match sum(task.case_failures)=" ++ toString caseFailuresSum)
  else if summaryTasksWithErrors ≠ tasksWithErrors then
    .error (source ++ ".summary.tasks_with_errors=" ++ toString summaryTasksWithErrors ++
      " does not match observed value " ++ toString tasksWithErrors)
  else if summaryAllCasesSucceeded ≠ decide (summaryCaseFailures = 0) then
    .error (source ++ ".summary.all_cases_succeeded=" ++
      toString summaryAllCasesSucceeded ++
      " does not match (case_failures == 0)=" ++
      toString (decide (summaryCaseFailures = 0)))
  else
    let aligned : Except String Unit :=
      match suite with
      | some s => validateSuiteAlignment s source suiteName suiteVersion checks
      | none => .ok ()
    match aligned with
    | .error msg => .error msg
    | .ok _ =>
        .ok (.obj [("run_id", jGetD run "run_id"), ("suite_name", jGetD run "suite_name"),
          ("suite_version", jGetD run "suite_version"), ("adapter", jGetD run "adapter"),
          ("started_at", jGetD run "started_at"), ("finished_at", jGetD run "finished_at"),
          ("summary", jGetD run "summary"), ("task_results", jGetD run "task_results"),
          ("provenance", jGetD run "provenance")])

/-- The `validate_run_artifact` operation: whitelist structural validation,
cross-consistency checks, then optional suite alignment; on success the
Python function returns a dict re-assembled from the raw payload values. -/
def validateRunArtifact (payload : J) (source : String)
    (suite : Option BenchmarkSuite) : Except String J :=
  match requireMapping payload source with
  | .error msg => .error msg
  | .ok run =>
      match validateKeySet run topLevelKeys source with
      | .error msg => .error msg
      | .ok _ =>
          match requireNonEmptyStr (jGetD run "run_id") (source ++ ".run_id"),
              requireNonEmptyStr (jGetD run "suite_name") (source ++ ".suite_name"),
              requireNonEmptyStr (jGetD run "suite_version") (source ++ ".suite_version") with
          | .error msg, _, _ => .error msg
          | _, .error msg, _ => .error msg
          | _, _, .error msg => .error msg
          | .ok _, .ok suiteName, .ok suiteVersion =>
              match requireNonEmptyStr (jGetD run "adapter") (source ++ ".adapter"),
                  requireNonEmptyStr (jGetD run "started_at") (source ++ ".started_at"),
                  requireNonEmptyStr (jGetD run "finished_at") (source ++ ".finished_at") with
              | .error msg, _, _ => .error msg
              | _, .error msg, _ => .error msg
              | _, _, .error msg => .error msg
              | .ok _, .ok _, .ok _ =>
                  match requireMapping (jGetD run "summary") (source ++ ".summary") with
                  | .error msg => .error msg
                  | .ok summary =>
                      match validateKeySet summary summaryKeys (source ++ ".summary") with
                      | .error msg => .error msg
                      | .ok _ =>
                          match requireNonNegativeInt (jGetD summary "tasks_total")
                                (source ++ ".summary.tasks_total"),
                              requireNonNegativeInt (jGetD summary "tasks_with_errors")
                                (source ++ ".summary.tasks_with_errors"),
                              requireNonNegativeInt (jGetD summary "cases_total")
                                (source ++ ".summary.cases_total"),
                              requireNonNegativeInt (jGetD summary "case_failures")
                                (source ++ ".summary.case_failures"),
                              requireBool (jGetD summary "all_cases_succeeded")
                                (source ++ ".summary.all_cases_succeeded") with
                          | .error msg, _, _, _, _ => .error msg
                          | _, .error msg, _, _, _ => .error msg
                          | _, _, .error msg, _, _ => .error msg
                          | _, _, _, .error msg, _ => .error msg
                          | _, _, _, _, .error msg => .error msg
                          | .ok summaryTasksTotal, .ok summaryTasksWithErrors,
                              .ok summaryCasesTotal, .ok summaryCaseFailures,
                              .ok summaryAllCasesSucceeded =>
                              match requireList (jGetD run "task_results")
                                  (source ++ ".task_results") with
                              | .error msg => .error msg
                              | .ok taskResultsRaw =>
                                  match requireMapping (jGetD run "provenance")
                                      (source ++ ".provenance") with
                                  | .error msg => .error msg
                                  | .ok _ =>
                                      match validateTasks source taskResultsRaw 0 [] with
                                      | .error msg => .error msg
                                      | .ok checks =>
                                          validateCross run source suite suiteName suiteVersion
                                            summaryTasksTotal summaryTasksWithErrors
                                            summaryCasesTotal summaryCaseFailures
                                            summaryAllCasesSucceeded taskResultsRaw checks

/-! ### Comparison engine (`compare.py`) -/

/-- The `StatisticalPolicy` dataclass. -/
structure StatisticalPolicy where
  min_effect_size : ℚ := 0
  bootstrap_resamples : ℤ := 0
  confidence_level : ℚ := 95 / 100
  bootstrap_seed : Option ℤ := none
  fail_on_uncertain : Bool := false
  deriving Repr

/-- The `bootstrap_enabled` property. -/
def StatisticalPolicy.bootstrapEnabled (p : StatisticalPolicy) : Bool :=
  decide (0 < p.bootstrap_resamples)

/-- The `TaskComparison` dataclass. -/
structure TaskComparison where
  task_id : String
  metric : String
  direction : String
  baseline_score : Option ℚ
  candidate_score : Option ℚ
  tolerance : ℚ
  threshold : ℚ
  delta : Option ℚ
  regression_amount : Option ℚ
  ci_low : Option ℚ
  ci_high : Option ℚ
  p_regression : Option ℚ
  paired_cases : ℕ
  status : String
  message : String
  deriving Repr

/-- The summary dict of a `ComparisonReport`. -/
structure ReportSummary where
  tasks_total : ℕ
  regressions : ℕ
  uncertain : ℕ
  passed : Bool
  deriving Repr

/-- The `ComparisonReport` dataclass (the policy payload dict carries exactly
the policy fields, so it is kept as the policy itself). -/
structure ComparisonReport where
  suite_name : String
  suite_version : String
  summary : ReportSummary
  policy : StatisticalPolicy
  task_comparisons : List TaskComparison
  deriving Repr

/-- Python `dict.get` on a task map. -/
def taskLookup (m : List (String × List (String × J))) (taskId : String) :
    Option (List (String × J)) :=
  (m.find? (fun p => p.1 == taskId)).map (fun p => p.2)

/-- The `_seed_for_task` helper. -/
def seedForTask (seed : Option ℤ) (taskIndex : ℕ) : Option ℤ :=
  match seed with
  | none => none
  | some s => some (s + taskIndex)

/-- Python dict insertion (overwrite in place, append when new). -/
def assocInsert (m : List (String × List (String × J))) (key : String)
    (v : List (String × J)) : List (String × List (String × J)) :=
  if m.any (fun p => p.1 == key) then
    m.map (fun p => if p.1 == key then (key, v) else p)
  else m ++ [(key, v)]

/-- The `_task_map` helper: index the `task_results` entries by their string
`task_id`, skipping malformed entries. -/
def taskMap (runPayload : List (String × J)) : List (String × List (String × J)) :=
  match jLookup runPayload "task_results" with
  | some (.arr rawTasks) =>
      rawTasks.foldl (fun acc t =>
        match t with
        | .obj fields =>
            match jLookup fields "task_id" with
            | some (.str taskId) => assocInsert acc taskId fields
            | _ => acc
        | _ => acc) []
  | _ => []

/-- The `_case_map` helper. -/
def caseMap (taskPayload : List (String × J)) : List (String × List (String × J)) :=
  match jLookup taskPayload "case_results" with
  | some (.arr rawCases) =>
      rawCases.foldl (fun acc c =>
        match c with
        | .obj fields =>
            match jLookup fields "case_id" with
            | some (.str caseId) => assocInsert acc caseId fields
            | _ => acc
        | _ => acc) []
  | _ => []

/-- The `_extract_score` helper: missing/`null`/uncoercible scores become
`none` (the `TypeError`/`ValueError` of `float` is caught there). -/
def extractScore (taskPayload : Option (List (String × J))) : Option ℚ :=
  match taskPayload with
  | none => none
  | some fields =>
      match jGetD fields "score" with
      | .null => none
      | v => v.toFloat

/-- The `_paired_cases` helper: the paired intersection of non-failed cases
with non-null expected/predicted values on both sides, in baseline order. -/
def pairedCases (baselineTask candidateTask : List (String × J)) :
    List (J × J × J × J) :=
  let baselineCases := caseMap baselineTask
  let candidateCases := caseMap candidateTask
  baselineCases.foldl (fun pairs entry =>
    match (candidateCases.find? (fun p => p.1 == entry.1)).map (fun p => p.2) with
    | none => pairs
    | some candidateCase =>
        let baselineCase := entry.2
        match jGetD baselineCase "error", jGetD candidateCase "error" with
        | .null, .null =>
            let be := jGetD baselineCase "expected"
            let bp := jGetD baselineCase "predicted"
            let ce := jGetD candidateCase "expected"
            let cp := jGetD candidateCase "predicted"
            match be, bp, ce, cp with
            | .null, _, _, _ => pairs
            | _, .null, _, _ => pairs
            | _, _, .null, _ => pairs
            | _, _, _, .null => pairs
            | _, _, _, _ => pairs ++ [(be, bp, ce, cp)]
        | _, _ => pairs) []

/-- The indices of one bootstrap resample: `n` draws of `rng.randrange(n)`,
taken from the seeded stream at consecutive draw counters. -/
def drawIndices (gen : Option ℤ → ℕ → ℕ) (seed : Option ℤ) (base n : ℕ) :
    List ℕ :=
  (List.range n).map (fun j => gen seed (base + j) % n)

/-- One bootstrap iteration: recompute both scores on the resampled pairs and
return the resampled regression amount (`ValueError` from the metric engine
propagates as `.error` and is caught by the caller). -/
def resampleOnce (sq : ℚ → ℚ) (metric direction : String) (positiveLabel : J)
    (be bp ce cp : List J) (indices : List ℕ) : Except String ℚ :=
  let bE := indices.map (fun idx => be.getD idx J.null)
  let bP := indices.map (fun idx => bp.getD idx J.null)
  let cE := indices.map (fun idx => ce.getD idx J.null)
  let cP := indices.map (fun idx => cp.getD idx J.null)
  match computeMetric sq metric bE bP positiveLabel with
  | .error msg => .error msg
  | .ok baselineScore =>
      match computeMetric sq metric cE cP positiveLabel with
      | .error msg => .error msg
      | .ok candidateScore =>
          let delta := candidateScore - baselineScore
          .ok (if direction = "lower" then delta else -delta)

/-- The resampling loop of `_bootstrap_regression_stats`, accumulating the
regression-amount samples and the count of samples exceeding the threshold. -/
def resampleLoop (sq : ℚ → ℚ) (gen : Option ℤ → ℕ → ℕ) (seed : Option ℤ)
    (metric direction : String) (positiveLabel : J) (be bp ce cp : List J)
    (nCases : ℕ) (threshold : ℚ) :
    ℕ → ℕ → List ℚ → ℕ → Option (List ℚ × ℕ)
  | 0, _, samples, hits => some (samples, hits)
  | Nat.succ k, drawBase, samples, hits =>
      let indices := drawIndices gen seed drawBase nCases
      match resampleOnce sq metric direction positiveLabel be bp ce cp indices with
      | .error _ => none
      | .ok regressionAmount =>
          resampleLoop sq gen seed metric direction positiveLabel be bp ce cp
            nCases threshold k (drawBase + nCases)
            (samples ++ [regressionAmount])
            (if threshold < regressionAmount then hits + 1 else hits)

/-- The `_bootstrap_regression_stats` operation: `none` when fewer than 2
paired cases, no resamples, or any resampled metric raised; otherwise the
CI bounds and regression probability.  With at least one resample the sample
list is non-empty, so the quantile calls cannot fail; the unreachable failure
is mapped to `none`. -/
def bootstrapRegressionStats (sq : ℚ → ℚ) (gen : Option ℤ → ℕ → ℕ)
    (metric direction : String) (positiveLabel : J)
    (pairs : List (J × J × J × J)) (threshold : ℚ) (resamples : ℤ)
    (confidenceLevel : ℚ) (seed : Option ℤ) : Option (ℚ × ℚ × ℚ) :=
  if pairs.length < 2 ∨ resamples ≤ 0 then none
  else
    let nCases := pairs.length
    let be := pairs.map (fun item => item.1)
    let bp := pairs.map (fun item => item.2.1)
    let ce := pairs.map (fun item => item.2.2.1)
    let cp := pairs.map (fun item => item.2.2.2)
    match resampleLoop sq gen seed metric direction positiveLabel be bp ce cp
        nCases threshold resamples.toNat 0 [] 0 with
    | none => none
    | some (samples, hits) =>
        let alpha := 1 - confidenceLevel
        match quantile samples (alpha / 2), quantile samples (1 - alpha / 2) with
        | .ok ciLow, .ok ciHigh =>
            some (ciLow, ciHigh, (hits : ℚ) / (samples.length : ℚ))
        | _, _ => none

/-- A `TaskComparison` for the degenerate branches (missing task / missing
score): threshold computed, everything statistical left null. -/
def missingComparison (task : BenchmarkTask) (direction : String)
    (baselineScore candidateScore : Option ℚ) (threshold : ℚ)
    (message : String) : TaskComparison :=
  { task_id := task.task_id, metric := task.metric, direction := direction,
    baseline_score := baselineScore, candidate_score := candidateScore,
    tolerance := task.regression_tolerance, threshold := threshold,
    delta := none, regression_amount := none, ci_low := none, ci_high := none,
    p_regression := none, paired_cases := 0, status := "regression",
    message := message }

/-- The per-task body of the `compare_runs` loop (one iteration of
`for task_index, task in enumerate(suite.tasks)`), producing that task's
`TaskComparison`.  The only failure is `metric_direction` on an unsupported
metric, which in Python propagates out of `compare_runs`. -/
def compareTask (sq : ℚ → ℚ) (gen : Option ℤ → ℕ → ℕ)
    (policy : StatisticalPolicy) (taskIndex : ℕ) (task : BenchmarkTask)
    (baselineTasks candidateTasks : List (String × List (String × J))) :
    Except String TaskComparison :=
  let baselineTask := taskLookup baselineTasks task.task_id
  let candidateTask := taskLookup candidateTasks task.task_id
  let threshold := max task.regression_tolerance policy.min_effect_size
  match metricDirection task.metric with
  | .error msg => .error msg
  | .ok direction =>
      match baselineTask with
      | none =>
          .ok (missingComparison task direction none (extractScore candidateTask)
            threshold "Task missing in baseline run")
      | some baselineFields =>
          match candidateTask with
          | none =>
              .ok (missingComparison task direction
                (extractScore (some baselineFields)) none threshold
                "Task missing in candidate run")
          | some candidateFields =>
              let baselineScoreOpt := extractScore (some baselineFields)
              let candidateScoreOpt := extractScore (some candidateFields)
              match baselineScoreOpt, candidateScoreOpt with
              | none, _ =>
                  .ok (missingComparison task direction baselineScoreOpt
                    candidateScoreOpt threshold "Missing score in one of the runs")
              | _, none =>
                  .ok (missingComparison task direction baselineScoreOpt
                    candidateScoreOpt threshold "Missing score in one of the runs")
              | some baselineScore, some candidateScore =>
                  let delta := candidateScore - baselineScore
                  let regressionAmount := if direction = "lower" then delta else -delta
                  let pointRegression := threshold < regressionAmount
                  let pointStatus := if pointRegression then "regression" else "pass"
                  let pointMessage :=
                    if pointRegression then "Exceeded threshold" else "Within threshold"
                  let scored : Option ℚ × Option ℚ × Option ℚ × ℕ × String × String :=
                    if policy.bootstrapEnabled then
                      let pairsData := pairedCases baselineFields candidateFields
                      match bootstrapRegressionStats sq gen task.metric direction
                          task.positive_label pairsData threshold
                          policy.bootstrap_resamples policy.confidence_level
                          (seedForTask policy.bootstrap_seed taskIndex) with
                      | some (ciLow, ciHigh, pRegression) =>
                          if ¬ pointRegression then
                            (some ciLow, some ciHigh, some pRegression,
                              pairsData.length, "pass", "Within threshold")
                          else if threshold < ciLow then
                            (some ciLow, some ciHigh, some pRegression,
                              pairsData.length, "regression",
                              "Bootstrap CI confirms regression")
                          else if ciHigh ≤ threshold then
                            (some ciLow, some ciHigh, some pRegression,
                              pairsData.length, "pass", "Bootstrap CI rejects regression")
                          else
                            (some ciLow, some ciHigh, some pRegression,
                              pairsData.length, "uncertain",
                              "Regression signal is inconclusive under bootstrap CI")
                      | none =>
                          if pointRegression then
                            (none, none, none, pairsData.length, "uncertain",
                              "Insufficient paired cases for bootstrap CI")
                          else
                            (none, none, none, pairsData.length, pointStatus, pointMessage)
                    else (none, none, none, 0, pointStatus, pointMessage)
                  .ok { task_id := task.task_id, metric := task.metric,
                        direction := direction, baseline_score := some baselineScore,
                        candidate_score := some candidateScore,
                        tolerance := task.regression_tolerance, threshold := threshold,
                        delta := some delta, regression_amount := some regressionAmount,
                        ci_low := scored.1, ci_high := scored.2.1,
                        p_regression := scored.2.2.1,
                        paired_cases := scored.2.2.2.1,
                        status := scored.2.2.2.2.1, message := scored.2.2.2.2.2 }

/-- The `compare_runs` task loop, carrying the comparison list and the
regression/uncertain counters exactly as the Python loop does. -/
def compareRunsAux (sq : ℚ → ℚ) (gen : Option ℤ → ℕ → ℕ)
    (policy : StatisticalPolicy)
    (baselineTasks candidateTasks : List (String × List (String × J))) :
    List BenchmarkTask → ℕ → List TaskComparison → ℕ → ℕ →
    Except String (List TaskComparison × ℕ × ℕ)
  | [], _, comparisons, regressions, uncertain => .ok (comparisons, regressions, uncertain)
  | task :: rest, taskIndex, comparisons, regressions, uncertain =>
      match compareTask sq gen policy taskIndex task baselineTasks candidateTasks with
      | .error msg => .error msg
      | .ok comparison =>
          compareRunsAux sq gen policy baselineTasks candidateTasks rest
            (taskIndex + 1) (comparisons ++ [comparison])
            (if comparison.status == "regression" then regressions + 1 else regressions)
            (if comparison.status == "uncertain" then uncertain + 1 else uncertain)

/-- The `compare_runs` operation (with `policy` always explicit; Python
defaults a missing policy to `StatisticalPolicy()`). -/
def compareRuns (sq : ℚ → ℚ) (gen : Option ℤ → ℕ → ℕ) (suite : BenchmarkSuite)
    (baselineRun candidateRun : List (String × J))
    (policy : StatisticalPolicy) : Except String ComparisonReport :=
  let baselineTasks := taskMap baselineRun
  let candidateTasks := taskMap candidateRun
  match compareRunsAux sq gen policy baselineTasks candidateTasks suite.tasks 0 [] 0 0 with
  | .error msg => .error msg
  | .ok (comparisons, regressions, uncertain) =>
      let passed :=
        decide (regressions = 0) &&
          (if policy.fail_on_uncertain then decide (uncertain = 0) else true)
      .ok { suite_name := suite.name, suite_version := suite.version,
            summary := { tasks_total := comparisons.length, regressions := regressions,
                         uncertain := uncertain, passed := passed },
            policy := policy, task_comparisons := comparisons }

/-! ## Theorems -/

/-- The predicate counted as a true positive. -/
def tpP (pl : J) (x : J × J) : Bool := pyEq x.1 pl && pyEq x.2 pl

/-- The predicate counted as a false positive. -/
def fpP (pl : J) (x : J × J) : Bool := !(pyEq x.1 pl) && pyEq x.2 pl

/-- The predicate counted as a false negative. -/
def fnP (pl : J) (x : J × J) : Bool := pyEq x.1 pl && !(pyEq x.2 pl)

theorem f1Step_eq (pl : J) (acc : ℕ × ℕ × ℕ) (ep : J × J) :
    f1Step pl acc ep =
      (acc.1 + (if tpP pl ep then 1 else 0),
        acc.2.1 + (if fpP pl ep then 1 else 0),
        acc.2.2 + (if fnP pl ep then 1 else 0)) := by
  by_cases h1 : pyEq ep.1 pl <;> by_cases h2 : pyEq ep.2 pl <;>
    simp [f1Step, tpP, fpP, fnP, h1, h2]

theorem f1Counts_go (pl : J) (pairs : List (J × J)) (a b c : ℕ) :
    pairs.foldl (f1Step pl) (a, b, c) =
      (a + pairs.countP (tpP pl), b + pairs.countP (fpP pl),
        c + pairs.countP (fnP pl)) := by
  induction pairs generalizing a b c with
  | nil => simp
  | cons ep rest ih =>
      rw [List.foldl_cons, f1Step_eq, ih]
      simp only [List.countP_cons, Prod.mk.injEq]
      refine ⟨?_, ?_, ?_⟩ <;> omega

theorem f1Counts_eq (pl : J) (pairs : List (J × J)) :
    f1Counts pl pairs =
      (pairs.countP (tpP pl), pairs.countP (fpP pl), pairs.countP (fnP pl)) := by
  unfold f1Counts
  simpa using f1Counts_go pl pairs 0 0 0

theorem computeMetric_f1 (sq : ℚ → ℚ) (ev pv : List J) (pl : J)
    (hlen : ev.length = pv.length) (hne : ev ≠ []) :
    computeMetric sq "f1" ev pv pl = .ok (f1Binary ev pv pl) := by
  have h1 : ¬ ev.length ≠ pv.length := by simpa using hlen
  have h2 : ev.isEmpty = false := by
    cases ev with
    | nil => exact absurd rfl hne
    | cons a t => rfl
  simp [computeMetric, h1, h2]

/-- C6, claim: for every pair of equal-length non-empty sequences and every
positive label, the f1 metric returns 1.0 when TP=FP=FN=0 (counting by
equality to the positive label), else 0.0 when precision+recall is 0, else
2*P*R/(P+R) with P = TP/(TP+FP) (0 if the denominator is 0) and
R = TP/(TP+FN) (0 if the denominator is 0); in particular
expected=[1,1,0,0], predicted=[1,0,1,0], positiveLabel=1 yields exactly
0.5. -/
theorem f1_metric_characterisation (sq : ℚ → ℚ) (ev pv : List J) (pl : J)
    (hlen : ev.length = pv.length) (hne : ev ≠ []) :
    (computeMetric sq "f1" ev pv pl =
      .ok (
        let tp := (ev.zip pv).countP (tpP pl)
        let fp := (ev.zip pv).countP (fpP pl)
        let fn := (ev.zip pv).countP (fnP pl)
        if tp = 0 ∧ fp = 0 ∧ fn = 0 then 1
        else
          let p : ℚ := if tp + fp = 0 then 0 else (tp : ℚ) / (((tp : ℕ) + fp : ℕ) : ℚ)
          let r : ℚ := if tp + fn = 0 then 0 else (tp : ℚ) / (((tp : ℕ) + fn : ℕ) : ℚ)
          if p + r = 0 then 0 else 2 * p * r / (p + r))) ∧
    computeMetric sq "f1" [.int 1, .int 1, .int 0, .int 0]
      [.int 1, .int 0, .int 1, .int 0] (.int 1) = .ok (1 / 2) := by
  constructor
  · rw [computeMetric_f1 sq ev pv pl hlen hne]
    simp only [f1Binary, f1Counts_eq]
  · with_unfolding_all rfl

/-- A closed instantiation of `f1_metric_characterisation` discharging its
hypotheses at a concrete input. -/
theorem f1_metric_characterisation_witness :
    computeMetric id "f1" [.int 1, .int 0] [.int 1, .int 1] (.int 1) =
      .ok (
        let tp := ([(J.int 1, J.int 1), (J.int 0, J.int 1)]).countP (tpP (.int 1))
        let fp := ([(J.int 1, J.int 1), (J.int 0, J.int 1)]).countP (fpP (.int 1))
        let fn := ([(J.int 1, J.int 1), (J.int 0, J.int 1)]).countP (fnP (.int 1))
        if tp = 0 ∧ fp = 0 ∧ fn = 0 then 1
        else
          let p : ℚ := if tp + fp = 0 then 0 else (tp : ℚ) / (((tp : ℕ) + fp : ℕ) : ℚ)
          let r : ℚ := if tp + fn = 0 then 0 else (tp : ℚ) / (((tp : ℕ) + fn : ℕ) : ℚ)
          if p + r = 0 then 0 else 2 * p * r / (p + r)) :=
  (f1_metric_characterisation id [.int 1, .int 0] [.int 1, .int 1] (.int 1)
    rfl (by simp)).1

theorem sorted_le_getLast? : ∀ (l : List ℚ), l.Sorted (· ≤ ·) →
    ∀ x ∈ l, ∃ m, l.getLast? = some m ∧ x ≤ m
  | [], _, x, hx => absurd hx (List.not_mem_nil x)
  | [a], _, x, hx => by
      have hxa : x = a := by simpa using hx
      exact ⟨a, rfl, hxa ▸ le_refl x⟩
  | a :: b :: t2, hs, x, hx => by
      have hpair := List.sorted_cons.mp hs
      obtain ⟨m, hm, hbm⟩ :=
        sorted_le_getLast? (b :: t2) hpair.2 b (List.mem_cons_self b t2)
      rcases List.mem_cons.mp hx with rfl | h
      · exact ⟨m, by rw [List.getLast?_cons_cons]; exact hm,
          le_trans (hpair.1 b (List.mem_cons_self b t2)) hbm⟩
      · obtain ⟨m2, hm2, hxm2⟩ := sorted_le_getLast? (b :: t2) hpair.2 x h
        exact ⟨m2, by rw [List.getLast?_cons_cons]; exact hm2, hxm2⟩

/-- C7, claim: the quantile function raises on an empty list, clamps the
probability into [0,1] before interpolating (probability ≤ 0 returns the
minimum, ≥ 1 the maximum), and otherwise linearly interpolates between the
floor and ceil order statistics at position p*(n-1); on [0,1,2,3,4] it
returns 2.0 at probability 0.5, 0.0 at 0.0 and 4.0 at 1.0.  The order
statistics are phrased through an arbitrary sorted permutation `l` of the
input. -/
theorem quantile_characterisation (vs : List ℚ) (p : ℚ) (l : List ℚ)
    (hne : vs ≠ []) (hperm : l.Perm vs) (hsort : l.Sorted (· ≤ ·)) :
    (∀ q : ℚ, quantile [] q = .error "Cannot compute quantile on empty values") ∧
    (p ≤ 0 → quantile vs p = .ok (l.headD 0) ∧ ∀ x ∈ vs, l.headD 0 ≤ x) ∧
    (1 ≤ p → quantile vs p = .ok (l.getLastD 0) ∧ ∀ x ∈ vs, x ≤ l.getLastD 0) ∧
    (0 < p → p < 1 →
      quantile vs p =
        .ok (
          let pos := p * ((vs.length : ℚ) - 1)
          let i := (⌊pos⌋).toNat
          let j := min (i + 1) (vs.length - 1)
          l.getD i 0 + (l.getD j 0 - l.getD i 0) * (pos - (i : ℚ)))) ∧
    quantile [0, 1, 2, 3, 4] (1 / 2) = .ok 2 ∧
    quantile [0, 1, 2, 3, 4] 0 = .ok 0 ∧
    quantile [0, 1, 2, 3, 4] 1 = .ok 4 := by
  have hl : l = vs.insertionSort (· ≤ ·) := by
    refine List.eq_of_perm_of_sorted ?_ hsort (List.sorted_insertionSort _ vs)
    exact hperm.trans (List.perm_insertionSort _ vs).symm
  have hlne : l ≠ [] := by
    intro h
    exact hne ((h ▸ hperm).symm.eq_nil)
  refine ⟨fun q => by with_unfolding_all rfl, ?_, ?_, ?_,
    by with_unfolding_all rfl, by with_unfolding_all rfl, by with_unfolding_all rfl⟩
  · intro hp
    constructor
    · rw [hl]
      simp [quantile, hne, hp]
    · intro x hx
      have hmem : x ∈ l := hperm.mem_iff.mpr hx
      cases hc : l with
      | nil => exact absurd hc hlne
      | cons a t =>
          rw [hc] at hmem hsort
          rcases List.mem_cons.mp hmem with rfl | h
          · simp
          · simpa using (List.sorted_cons.mp hsort).1 x h
  · intro hp
    constructor
    · have hp0 : ¬ p ≤ 0 := by
        intro h
        have := le_trans hp h
        norm_num at this
      rw [hl]
      simp [quantile, hne, hp0, hp]
    · intro x hx
      have hmem : x ∈ l := hperm.mem_iff.mpr hx
      obtain ⟨m, hm, hxm⟩ := sorted_le_getLast? l hsort x hmem
      rwa [List.getLastD_eq_getLast?, hm]
  · intro hp0 hp1
    have h1 : ¬ p ≤ 0 := not_le.mpr hp0
    have h2 : ¬ 1 ≤ p := not_le.mpr hp1
    rw [hl]
    simp [quantile, hne, h1, h2]

/-- A closed instantiation of `quantile_characterisation` discharging its
hypotheses at a concrete input. -/
theorem quantile_characterisation_witness :
    quantile [(3 : ℚ), 1] (1 / 2) =
      .ok (
        let pos := (1 / 2 : ℚ) * ((([(3 : ℚ), 1]).length : ℚ) - 1)
        let i := (⌊pos⌋).toNat
        let j := min (i + 1) (([(3 : ℚ), 1]).length - 1)
        ([(1 : ℚ), 3]).getD i 0 +
          (([(1 : ℚ), 3]).getD j 0 - ([(1 : ℚ), 3]).getD i 0) * (pos - (i : ℚ))) :=
  ((quantile_characterisation [3, 1] (1 / 2) [1, 3] (by simp)
    (by decide) (by decide)).2.2.2.1 (by norm_num) (by norm_num))

/-! ### Compare-engine lemmas -/

theorem extractScore_null {f : List (String × J)} (h : jGetD f "score" = J.null) :
    extractScore (some f) = none := by
  simp [extractScore, h]

theorem compareTask_isOk (sq : ℚ → ℚ) (gen : Option ℤ → ℕ → ℕ)
    (policy : StatisticalPolicy) (i : ℕ) (task : BenchmarkTask)
    (bt ct : List (String × List (String × J))) (d : String)
    (hdir : metricDirection task.metric = .ok d) :
    ∃ c, compareTask sq gen policy i task bt ct = .ok c := by
  unfold compareTask
  rw [hdir]
  dsimp only
  split
  · exact ⟨_, rfl⟩
  split
  · exact ⟨_, rfl⟩
  split
  · exact ⟨_, rfl⟩
  · exact ⟨_, rfl⟩
  · exact ⟨_, rfl⟩

theorem compareTask_missing_data (sq : ℚ → ℚ) (gen : Option ℤ → ℕ → ℕ)
    (policy : StatisticalPolicy) (i : ℕ) (task : BenchmarkTask)
    (bt ct : List (String × List (String × J))) (d : String)
    (hdir : metricDirection task.metric = .ok d)
    (H : taskLookup bt task.task_id = none ∨
      taskLookup ct task.task_id = none ∨
      (∃ f, taskLookup bt task.task_id = some f ∧ jGetD f "score" = J.null) ∨
      (∃ f, taskLookup ct task.task_id = some f ∧ jGetD f "score" = J.null)) :
    ∃ c, compareTask sq gen policy i task bt ct = .ok c ∧
      c.status = "regression" ∧
      c.threshold = max task.regression_tolerance policy.min_effect_size ∧
      c.delta = none ∧ c.regression_amount = none ∧ c.ci_low = none ∧
      c.ci_high = none ∧ c.p_regression = none := by
  unfold compareTask
  rw [hdir]
  dsimp only
  split
  · exact ⟨_, rfl, rfl, rfl, rfl, rfl, rfl, rfl, rfl⟩
  split
  · exact ⟨_, rfl, rfl, rfl, rfl, rfl, rfl, rfl, rfl⟩
  split
  · exact ⟨_, rfl, rfl, rfl, rfl, rfl, rfl, rfl, rfl⟩
  · exact ⟨_, rfl, rfl, rfl, rfl, rfl, rfl, rfl, rfl⟩
  · exfalso
    rcases H with h | h | ⟨f, hf, hnull⟩ | ⟨f, hf, hnull⟩ <;> simp_all [extractScore]

theorem compareRunsAux_spec (sq : ℚ → ℚ) (gen : Option ℤ → ℕ → ℕ)
    (policy : StatisticalPolicy)
    (bt ct : List (String × List (String × J))) :
    ∀ (tasks : List BenchmarkTask) (i0 : ℕ) (acc : List TaskComparison) (r u : ℕ),
      (∀ t ∈ tasks, ∃ d, metricDirection t.metric = .ok d) →
      ∃ comps regs unc,
        compareRunsAux sq gen policy bt ct tasks i0 acc r u = .ok (comps, regs, unc) ∧
        acc <+: comps ∧
        (∀ k, k < tasks.length →
          ∃ task c, tasks.get? k = some task ∧
            compareTask sq gen policy (i0 + k) task bt ct = .ok c ∧
            comps.get? (acc.length + k) = some c)
  | [], i0, acc, r, u, _ =>
      ⟨acc, r, u, rfl, List.prefix_refl acc, fun k hk => absurd hk (by simp)⟩
  | t :: rest, i0, acc, r, u, h => by
      obtain ⟨d, hd⟩ := h t (List.mem_cons_self t rest)
      obtain ⟨c, hc⟩ := compareTask_isOk sq gen policy i0 t bt ct d hd
      have hrest : ∀ t2 ∈ rest, ∃ d2, metricDirection t2.metric = .ok d2 :=
        fun t2 ht2 => h t2 (List.mem_cons_of_mem t ht2)
      obtain ⟨comps, regs, unc, heq, hpre, hget⟩ :=
        compareRunsAux_spec sq gen policy bt ct rest (i0 + 1) (acc ++ [c])
          (if c.status == "regression" then r + 1 else r)
          (if c.status == "uncertain" then u + 1 else u) hrest
      obtain ⟨tail, htail⟩ := hpre
      refine ⟨comps, regs, unc, ?_, ?_, ?_⟩
      · unfold compareRunsAux
        rw [hc]
        exact heq
      · exact ⟨[c] ++ tail, by rw [← htail]; simp⟩
      · intro k hk
        cases k with
        | zero =>
            refine ⟨t, c, rfl, by simpa using hc, ?_⟩
            rw [← htail, Nat.add_zero, List.get?_append (by simp),
              List.get?_concat_length]
        | succ k2 =>
            obtain ⟨task, c2, hg, hcomp, hcg⟩ := hget k2 (by simpa using hk)
            refine ⟨task, c2, by simpa using hg, ?_, ?_⟩
            · have harith : i0 + 1 + k2 = i0 + (k2 + 1) := by omega
              rwa [harith] at hcomp
            · have harith : acc.length + (k2 + 1) = (acc ++ [c]).length + k2 := by
                simp [List.length_append]
                omega
              rw [harith]
              exact hcg

/-- C5, claim: for every suite task that is absent from the baseline record,
absent from the candidate record, or whose score is null on either side,
compare_runs never raises: it records status regression for that task, with
threshold still computed as max(tolerance, min_effect_size) and delta,
regression_amount, ci_low, ci_high, p_regression all null.  (The only failure
mode of the comparison is an unsupported metric name in the suite itself,
excluded by `hdirs`.) -/
theorem compare_missing_task_or_score (sq : ℚ → ℚ) (gen : Option ℤ → ℕ → ℕ)
    (suite : BenchmarkSuite) (baselineRun candidateRun : List (String × J))
    (policy : StatisticalPolicy) (k : ℕ) (task : BenchmarkTask)
    (htask : suite.tasks.get? k = some task)
    (hdirs : ∀ t ∈ suite.tasks, ∃ d, metricDirection t.metric = .ok d)
    (H : taskLookup (taskMap baselineRun) task.task_id = none ∨
      taskLookup (taskMap candidateRun) task.task_id = none ∨
      (∃ f, taskLookup (taskMap baselineRun) task.task_id = some f ∧
        jGetD f "score" = J.null) ∨
      (∃ f, taskLookup (taskMap candidateRun) task.task_id = some f ∧
        jGetD f "score" = J.null)) :
    ∃ report c,
      compareRuns sq gen suite baselineRun candidateRun policy = .ok report ∧
      report.task_comparisons.get? k = some c ∧
      c.status = "regression" ∧
      c.threshold = max task.regression_tolerance policy.min_effect_size ∧
      c.delta = none ∧ c.regression_amount = none ∧ c.ci_low = none ∧
      c.ci_high = none ∧ c.p_regression = none := by
  obtain ⟨comps, regs, unc, heq, hpre, hget⟩ :=
    compareRunsAux_spec sq gen policy (taskMap baselineRun)
      (taskMap candidateRun) suite.tasks 0 [] 0 0 hdirs
  have hk : k < suite.tasks.length := by
    rcases List.get?_eq_some.mp htask with ⟨hlt, _⟩
    exact hlt
  obtain ⟨task2, c, hg2, hcomp, hcompsget⟩ := hget k hk
  rw [htask] at hg2
  have htaskeq : task = task2 := Option.some.inj hg2
  subst htaskeq
  have hmem : task ∈ suite.tasks := by
    rcases List.get?_eq_some.mp htask with ⟨hlt, hgt⟩
    exact hgt ▸ List.get_mem suite.tasks k hlt
  obtain ⟨d, hd⟩ := hdirs task hmem
  obtain ⟨c2, hc2, hstatus, hthr, hdelta, hra, hcl, hch, hpr⟩ :=
    compareTask_missing_data sq gen policy k task (taskMap baselineRun)
      (taskMap candidateRun) d hd H
  rw [Nat.zero_add] at hcomp
  rw [hcomp] at hc2
  have hceq : c = c2 := Except.ok.inj hc2
  subst hceq
  have hrun : compareRuns sq gen suite baselineRun candidateRun policy =
      .ok { suite_name := suite.name, suite_version := suite.version,
            summary := { tasks_total := comps.length, regressions := regs,
                         uncertain := unc,
                         passed := decide (regs = 0) &&
                           (if policy.fail_on_uncertain then decide (unc = 0)
                            else true) },
            policy := policy, task_comparisons := comps } := by
    unfold compareRuns
    dsimp only
    rw [heq]
  refine ⟨_, c, hrun, ?_, hstatus, hthr, hdelta, hra, hcl, hch, hpr⟩
  simpa using hcompsget

/-- A run payload for the C5 witness whose single task carries a null
score. -/
def nullScoreRun : List (String × J) :=
  [("task_results", .arr [.obj [("task_id", .str "t1"), ("score", J.null)]])]

/-- A closed instantiation of `compare_missing_task_or_score` discharging its
hypotheses at a concrete input (the task is present on both sides but its
score is null). -/
theorem compare_missing_task_or_score_witness :
    ∃ report c,
      compareRuns (fun q => q) (fun _ _ => 0)
        { name := "s", version := "1", description := "",
          tasks := [{ task_id := "t1", metric := "mae", prediction_key := "out",
                      expected_key := "out" }] }
        nullScoreRun nullScoreRun {} = .ok report ∧
      report.task_comparisons.get? 0 = some c ∧
      c.status = "regression" ∧
      c.threshold = max (0 : ℚ) (0 : ℚ) ∧
      c.delta = none ∧ c.regression_amount = none ∧ c.ci_low = none ∧
      c.ci_high = none ∧ c.p_regression = none := by
  have h := compare_missing_task_or_score (fun q => q) (fun _ _ => 0)
    { name := "s", version := "1", description := "",
      tasks := [{ task_id := "t1", metric := "mae", prediction_key := "out",
                  expected_key := "out" }] }
    nullScoreRun nullScoreRun {} 0
    { task_id := "t1", metric := "mae", prediction_key := "out",
      expected_key := "out" }
    (by with_unfolding_all rfl)
    (by
      intro t ht
      simp only [List.mem_singleton] at ht
      subst ht
      exact ⟨"lower", by with_unfolding_all rfl⟩)
    (Or.inr (Or.inr (Or.inl
      ⟨[("task_id", .str "t1"), ("score", J.null)],
        by with_unfolding_all rfl, by with_unfolding_all rfl⟩)))
  exact h

/-- C2, claim: for every task compared with bootstrap enabled
(bootstrap_resamples > 0) and both scores present: if at least 2 paired cases
exist and all resampled scores compute (the statistics come back `some`), the
status is pass when the point regression amount is ≤ threshold, regression
when it exceeds the threshold and ci_low > threshold, pass when it exceeds
the threshold and ci_high ≤ threshold, and uncertain otherwise; if fewer than
2 paired cases exist, bootstrap is skipped, a point-estimate pass is kept,
and a point-estimate regression becomes uncertain. -/
theorem bootstrap_status_classification (sq : ℚ → ℚ) (gen : Option ℤ → ℕ → ℕ)
    (policy : StatisticalPolicy) (i : ℕ) (task : BenchmarkTask)
    (bt ct : List (String × List (String × J)))
    (bfields cfields : List (String × J)) (bscore cscore : ℚ) (d : String)
    (henabled : 0 < policy.bootstrap_resamples)
    (hbf : taskLookup bt task.task_id = some bfields)
    (hcf : taskLookup ct task.task_id = some cfields)
    (hbs : extractScore (some bfields) = some bscore)
    (hcs : extractScore (some cfields) = some cscore)
    (hdir : metricDirection task.metric = .ok d) :
    ∃ c, compareTask sq gen policy i task bt ct = .ok c ∧
      (∀ cl ch pr,
        bootstrapRegressionStats sq gen task.metric d task.positive_label
            (pairedCases bfields cfields)
            (max task.regression_tolerance policy.min_effect_size)
            policy.bootstrap_resamples policy.confidence_level
            (seedForTask policy.bootstrap_seed i) = some (cl, ch, pr) →
        c.ci_low = some cl ∧ c.ci_high = some ch ∧ c.p_regression = some pr ∧
        c.status =
          (if (if d = "lower" then cscore - bscore else -(cscore - bscore)) ≤
              max task.regression_tolerance policy.min_effect_size then "pass"
           else if max task.regression_tolerance policy.min_effect_size < cl then
             "regression"
           else if ch ≤ max task.regression_tolerance policy.min_effect_size then
             "pass"
           else "uncertain")) ∧
      ((pairedCases bfields cfields).length < 2 →
        bootstrapRegressionStats sq gen task.metric d task.positive_label
            (pairedCases bfields cfields)
            (max task.regression_tolerance policy.min_effect_size)
            policy.bootstrap_resamples policy.confidence_level
            (seedForTask policy.bootstrap_seed i) = none ∧
        c.ci_low = none ∧ c.ci_high = none ∧ c.p_regression = none ∧
        c.status =
          (if (if d = "lower" then cscore - bscore else -(cscore - bscore)) ≤
              max task.regression_tolerance policy.min_effect_size then "pass"
           else "uncertain")) := by
  have hen : policy.bootstrapEnabled = true := by
    simp [StatisticalPolicy.bootstrapEnabled, henabled]
  unfold compareTask
  rw [hdir]
  dsimp only
  rw [hbf, hcf]
  dsimp only
  rw [hbs, hcs]
  dsimp only
  rw [hen, if_pos rfl]
  refine ⟨_, rfl, ?_, ?_⟩
  · intro cl ch pr hstats
    rw [hstats]
    dsimp only
    by_cases hra2 : (if d = "lower" then cscore - bscore else -(cscore - bscore)) ≤
        max task.regression_tolerance policy.min_effect_size
    · simp only [if_pos (not_lt.mpr hra2), if_pos hra2]
      simp
    · have hlt := not_le.mp hra2
      simp only [if_neg (not_not_intro hlt), if_neg hra2]
      by_cases hcl2 : max task.regression_tolerance policy.min_effect_size < cl
      · simp only [if_pos hcl2]
        simp
      · simp only [if_neg hcl2]
        by_cases hch2 : ch ≤ max task.regression_tolerance policy.min_effect_size
        · simp only [if_pos hch2]
          simp
        · simp only [if_neg hch2]
          simp
  · intro hfew
    have hnone : bootstrapRegressionStats sq gen task.metric d task.positive_label
        (pairedCases bfields cfields)
        (max task.regression_tolerance policy.min_effect_size)
        policy.bootstrap_resamples policy.confidence_level
        (seedForTask policy.bootstrap_seed i) = none := by
      unfold bootstrapRegressionStats
      rw [if_pos (Or.inl hfew)]
    rw [hnone]
    dsimp only
    refine ⟨rfl, ?_⟩
    by_cases hra2 : (if d = "lower" then cscore - bscore else -(cscore - bscore)) ≤
        max task.regression_tolerance policy.min_effect_size
    · simp only [if_neg (not_lt.mpr hra2), if_pos hra2]
      simp
    · have hlt := not_le.mp hra2
      simp only [if_pos hlt, if_neg hra2]
      simp

/-- The concrete task for the C2 witness. -/
def c2task : BenchmarkTask :=
  { task_id := "t1", metric := "mae", prediction_key := "out",
    expected_key := "out" }

/-- The concrete task-result fields for the C2 witness. -/
def c2fields : List (String × J) := [("task_id", .str "t1"), ("score", .num 1)]

/-- The concrete run payload for the C2 witness. -/
def c2run : List (String × J) := [("task_results", .arr [.obj c2fields])]

/-- A closed instantiation of `bootstrap_status_classification` discharging
its hypotheses at a concrete input. -/
theorem bootstrap_status_classification_witness :
    ∃ c, compareTask (fun q => q) (fun _ _ => 0) { bootstrap_resamples := 1 }
      0 c2task (taskMap c2run) (taskMap c2run) = .ok c := by
  obtain ⟨c, hc, h1, h2⟩ :=
    bootstrap_status_classification (fun q => q) (fun _ _ => 0)
      { bootstrap_resamples := 1 } 0 c2task (taskMap c2run) (taskMap c2run)
      c2fields c2fields 1 1 "lower" (by norm_num)
      (by with_unfolding_all rfl) (by with_unfolding_all rfl)
      (by with_unfolding_all rfl) (by with_unfolding_all rfl)
      (by with_unfolding_all rfl)
  exact ⟨c, hc⟩

/-- Comparing a payload with itself: when the task is present with a numeric
score, its comparison status is always pass (the regression amount is 0 and
the threshold is non-negative whenever the policy minimum effect size is). -/
theorem compareTask_self_pass (sq : ℚ → ℚ) (gen : Option ℤ → ℕ → ℕ)
    (policy : StatisticalPolicy) (i : ℕ) (task : BenchmarkTask)
    (bt : List (String × List (String × J))) (d : String)
    (f : List (String × J)) (q : ℚ)
    (hmes : 0 ≤ policy.min_effect_size)
    (hdir : metricDirection task.metric = .ok d)
    (hf : taskLookup bt task.task_id = some f)
    (hq : extractScore (some f) = some q) :
    ∃ c, compareTask sq gen policy i task bt bt = .ok c ∧
      c.status = "pass" := by
  have hth : ¬ (max task.regression_tolerance policy.min_effect_size < 0) :=
    not_lt.mpr (le_trans hmes (le_max_right _ _))
  have hra0 : (if d = "lower" then q - q else -(q - q)) = 0 := by
    split <;> ring
  unfold compareTask
  rw [hdir]
  dsimp only
  rw [hf]
  try dsimp only
  rw [hq]
  try dsimp only
  refine ⟨_, rfl, ?_⟩
  rw [hra0]
  cases hb : policy.bootstrapEnabled with
  | false =>
      simp only [hb, Bool.false_eq_true, if_false]
      try dsimp only
      rw [if_neg hth]
  | true =>
      simp only [hb, if_true]
      try dsimp only
      split
      · rw [if_pos hth]
      · rw [if_neg hth]
        try dsimp only
        rw [if_neg hth]

/-- When every task of the list compares with status pass, the regression and
uncertain counters come out unchanged from the `compare_runs` loop. -/
theorem compareRunsAux_all_pass (sq : ℚ → ℚ) (gen : Option ℤ → ℕ → ℕ)
    (policy : StatisticalPolicy) (bt ct : List (String × List (String × J))) :
    ∀ (tasks : List BenchmarkTask) (i0 : ℕ) (acc : List TaskComparison)
      (r u : ℕ),
      (∀ k task, tasks.get? k = some task →
        ∃ c, compareTask sq gen policy (i0 + k) task bt ct = .ok c ∧
          c.status = "pass") →
      ∀ comps regs unc,
        compareRunsAux sq gen policy bt ct tasks i0 acc r u = .ok (comps, regs, unc) →
        regs = r ∧ unc = u
  | [], i0, acc, r, u, _, comps, regs, unc, heq => by
      unfold compareRunsAux at heq
      injection heq with h
      injection h with ha h2
      injection h2 with hr hu
      exact ⟨hr.symm, hu.symm⟩
  | t :: rest, i0, acc, r, u, h, comps, regs, unc, heq => by
      obtain ⟨c, hc, hstatus⟩ := h 0 t rfl
      rw [Nat.add_zero] at hc
      unfold compareRunsAux at heq
      rw [hc] at heq
      dsimp only at heq
      have hr : (if c.status == "regression" then r + 1 else r) = r := by
        rw [hstatus]
        rfl
      have hu : (if c.status == "uncertain" then u + 1 else u) = u := by
        rw [hstatus]
        rfl
      rw [hr, hu] at heq
      exact compareRunsAux_all_pass sq gen policy bt ct rest (i0 + 1)
        (acc ++ [c]) r u
        (fun k task hk => by
          have := h (k + 1) task (by simpa using hk)
          rwa [show i0 + (k + 1) = i0 + 1 + k by omega] at this)
        comps regs unc heq

/-- C1, amended claim: for every suite, every policy whose min_effect_size is
≥ 0, and every run payload in which each suite task is present with a
numeric (non-null) score, comparing the payload with itself yields
summary.passed = true and summary.regressions = 0. -/
theorem self_compare_passes (sq : ℚ → ℚ) (gen : Option ℤ → ℕ → ℕ)
    (suite : BenchmarkSuite) (p : List (String × J))
    (policy : StatisticalPolicy)
    (hmes : 0 ≤ policy.min_effect_size)
    (hdirs : ∀ t ∈ suite.tasks, ∃ d, metricDirection t.metric = .ok d)
    (hscores : ∀ t ∈ suite.tasks, ∃ f q,
      taskLookup (taskMap p) t.task_id = some f ∧
      extractScore (some f) = some q) :
    ∃ report, compareRuns sq gen suite p p policy = .ok report ∧
      report.summary.passed = true ∧ report.summary.regressions = 0 := by
  obtain ⟨comps, regs, unc, heq, hpre, hget⟩ :=
    compareRunsAux_spec sq gen policy (taskMap p) (taskMap p)
      suite.tasks 0 [] 0 0 hdirs
  have hpass : ∀ k task, suite.tasks.get? k = some task →
      ∃ c, compareTask sq gen policy (0 + k) task (taskMap p) (taskMap p) = .ok c ∧
        c.status = "pass" := by
    intro k task hk
    have hmem : task ∈ suite.tasks := by
      rcases List.get?_eq_some.mp hk with ⟨hlt, hgt⟩
      exact hgt ▸ List.get_mem suite.tasks k hlt
    obtain ⟨d, hd⟩ := hdirs task hmem
    obtain ⟨f, q, hf, hq⟩ := hscores task hmem
    exact compareTask_self_pass sq gen policy (0 + k) task (taskMap p) d f q
      hmes hd hf hq
  obtain ⟨hr, hu⟩ := compareRunsAux_all_pass sq gen policy (taskMap p)
    (taskMap p) suite.tasks 0 [] 0 0 hpass comps regs unc heq
  subst hr
  subst hu
  have hrun : compareRuns sq gen suite p p policy =
      .ok { suite_name := suite.name, suite_version := suite.version,
            summary := { tasks_total := comps.length, regressions := 0,
                         uncertain := 0,
                         passed := decide ((0 : ℕ) = 0) &&
                           (if policy.fail_on_uncertain then decide ((0 : ℕ) = 0)
                            else true) },
            policy := policy, task_comparisons := comps } := by
    unfold compareRuns
    dsimp only
    rw [heq]
  refine ⟨_, hrun, ?_, rfl⟩
  simp

/-- The one-task suite used by the C1 counterexample and witness. -/
def c1suite : BenchmarkSuite :=
  { name := "s", version := "1", description := "",
    tasks := [{ task_id := "t1", metric := "mae", prediction_key := "out",
                expected_key := "out" }] }

/-- C1, counterexample: the claim quantifies over every run record, but a run
record in which the suite task carries a null score (which the runner
produces whenever all cases of the task fail) compared against itself yields
summary.passed = false and one regression, with the default policy whose
min_effect_size is 0 ≥ 0. -/
theorem self_compare_counterexample :
    ∃ report,
      compareRuns (fun q => q) (fun _ _ => 0) c1suite nullScoreRun
        nullScoreRun {} = .ok report ∧
      report.summary.passed = false ∧ report.summary.regressions = 1 := by
  with_unfolding_all exact ⟨_, rfl, rfl, rfl⟩

/-- A closed instantiation of `self_compare_passes` discharging its
hypotheses at a concrete input. -/
theorem self_compare_passes_witness :
    ∃ report,
      compareRuns (fun q => q) (fun _ _ => 0) c1suite c2run c2run {} =
        .ok report ∧
      report.summary.passed = true ∧ report.summary.regressions = 0 :=
  self_compare_passes (fun q => q) (fun _ _ => 0) c1suite c2run {}
    (by norm_num)
    (by
      intro t ht
      simp only [c1suite, List.mem_singleton] at ht
      subst ht
      exact ⟨"lower", by with_unfolding_all rfl⟩)
    (by
      intro t ht
      simp only [c1suite, List.mem_singleton] at ht
      subst ht
      exact ⟨c2fields, 1, by with_unfolding_all rfl, by with_unfolding_all rfl⟩)

/-! ### Determinism of seeded comparison (C8) -/

theorem drawIndices_congr (g1 g2 : Option ℤ → ℕ → ℕ) (seed : Option ℤ)
    (h : ∀ k, g1 seed k = g2 seed k) (base n : ℕ) :
    drawIndices g1 seed base n = drawIndices g2 seed base n := by
  unfold drawIndices
  apply List.map_congr_left
  intro j _
  rw [h]

theorem resampleLoop_congr (sq : ℚ → ℚ) (g1 g2 : Option ℤ → ℕ → ℕ)
    (seed : Option ℤ) (metric direction : String) (pl : J)
    (be bp ce cp : List J) (n : ℕ) (th : ℚ)
    (h : ∀ k, g1 seed k = g2 seed k) :
    ∀ (iter base : ℕ) (samples : List ℚ) (hits : ℕ),
      resampleLoop sq g1 seed metric direction pl be bp ce cp n th
          iter base samples hits =
        resampleLoop sq g2 seed metric direction pl be bp ce cp n th
          iter base samples hits
  | 0, _, _, _ => rfl
  | Nat.succ k, base, samples, hits => by
      unfold resampleLoop
      rw [drawIndices_congr g1 g2 seed h base n]
      dsimp only
      cases resampleOnce sq metric direction pl be bp ce cp
          (drawIndices g2 seed base n) with
      | error e => rfl
      | ok ra =>
          exact resampleLoop_congr sq g1 g2 seed metric direction pl be bp ce cp
            n th h k (base + n) (samples ++ [ra])
            (if th < ra then hits + 1 else hits)

theorem bootstrapRegressionStats_congr (sq : ℚ → ℚ)
    (g1 g2 : Option ℤ → ℕ → ℕ) (metric direction : String) (pl : J)
    (pairs : List (J × J × J × J)) (th : ℚ) (resamples : ℤ) (cl : ℚ)
    (seed : Option ℤ) (h : ∀ k, g1 seed k = g2 seed k) :
    bootstrapRegressionStats sq g1 metric direction pl pairs th resamples cl seed =
      bootstrapRegressionStats sq g2 metric direction pl pairs th resamples cl seed := by
  unfold bootstrapRegressionStats
  by_cases hc : pairs.length < 2 ∨ resamples ≤ 0
  · simp only [if_pos hc]
  · simp only [if_neg hc]
    rw [resampleLoop_congr sq g1 g2 seed metric direction pl _ _ _ _ _ _ h]

theorem compareTask_congr (sq : ℚ → ℚ) (g1 g2 : Option ℤ → ℕ → ℕ)
    (policy : StatisticalPolicy) (s : ℤ) (i : ℕ) (task : BenchmarkTask)
    (bt ct : List (String × List (String × J)))
    (hseed : policy.bootstrap_seed = some s)
    (hagree : ∀ z k, g1 (some z) k = g2 (some z) k) :
    compareTask sq g1 policy i task bt ct = compareTask sq g2 policy i task bt ct := by
  have hstats : ∀ (m d : String) (pl : J) (pairs : List (J × J × J × J)) (th : ℚ),
      bootstrapRegressionStats sq g1 m d pl pairs th policy.bootstrap_resamples
          policy.confidence_level (some (s + (i : ℤ))) =
        bootstrapRegressionStats sq g2 m d pl pairs th policy.bootstrap_resamples
          policy.confidence_level (some (s + (i : ℤ))) :=
    fun m d pl pairs th =>
      bootstrapRegressionStats_congr sq g1 g2 m d pl pairs th _ _ _
        (fun k => hagree (s + (i : ℤ)) k)
  unfold compareTask
  simp only [hseed, seedForTask, hstats]

theorem compareRunsAux_congr (sq : ℚ → ℚ) (g1 g2 : Option ℤ → ℕ → ℕ)
    (policy : StatisticalPolicy) (s : ℤ)
    (bt ct : List (String × List (String × J)))
    (hseed : policy.bootstrap_seed = some s)
    (hagree : ∀ z k, g1 (some z) k = g2 (some z) k) :
    ∀ (tasks : List BenchmarkTask) (i0 : ℕ) (acc : List TaskComparison)
      (r u : ℕ),
      compareRunsAux sq g1 policy bt ct tasks i0 acc r u =
        compareRunsAux sq g2 policy bt ct tasks i0 acc r u
  | [], _, _, _, _ => rfl
  | t :: rest, i0, acc, r, u => by
      unfold compareRunsAux
      rw [compareTask_congr sq g1 g2 policy s i0 t bt ct hseed hagree]
      cases compareTask sq g2 policy i0 t bt ct with
      | error msg => rfl
      | ok c =>
          exact compareRunsAux_congr sq g1 g2 policy s bt ct hseed hagree rest
            (i0 + 1) (acc ++ [c])
            (if c.status == "regression" then r + 1 else r)
            (if c.status == "uncertain" then u + 1 else u)

/-- C8, claim: compare_runs is deterministic when policy.bootstrap_seed is
given: two calls on the same suite, run records and policy produce identical
reports (in particular identical ci_low, ci_high and p_regression for every
task) even under different ambient entropy — every task at index i draws from
its own generator seeded with bootstrap_seed + i, never from the unseeded
stream.  `g1` and `g2` are two PRNG environments that agree on every seeded
stream but may differ arbitrarily on the unseeded (`none`) stream. -/
theorem seeded_compare_deterministic (sq : ℚ → ℚ)
    (g1 g2 : Option ℤ → ℕ → ℕ) (suite : BenchmarkSuite)
    (baselineRun candidateRun : List (String × J))
    (policy : StatisticalPolicy) (s : ℤ)
    (hseed : policy.bootstrap_seed = some s)
    (hagree : ∀ z k, g1 (some z) k = g2 (some z) k) :
    compareRuns sq g1 suite baselineRun candidateRun policy =
      compareRuns sq g2 suite baselineRun candidateRun policy ∧
    ∀ i : ℕ, seedForTask policy.bootstrap_seed i = some (s + (i : ℤ)) := by
  constructor
  · unfold compareRuns
    dsimp only
    rw [compareRunsAux_congr sq g1 g2 policy s (taskMap baselineRun)
      (taskMap candidateRun) hseed hagree]
  · intro i
    rw [hseed]
    rfl

/-- A closed instantiation of `seeded_compare_deterministic` discharging its
hypotheses at a concrete input: the two generator environments differ on the
unseeded stream yet the seeded comparison reports coincide. -/
theorem seeded_compare_deterministic_witness :
    compareRuns (fun q => q)
        (fun o k => match o with | some z => z.toNat + k | none => 3 * k)
        c1suite c2run c2run { bootstrap_resamples := 2, bootstrap_seed := some 5 } =
      compareRuns (fun q => q)
        (fun o k => match o with | some z => z.toNat + k | none => 7 * k + 1)
        c1suite c2run c2run { bootstrap_resamples := 2, bootstrap_seed := some 5 } ∧
    ∀ i : ℕ, seedForTask (some 5) i = some (5 + (i : ℤ)) :=
  seeded_compare_deterministic (fun q => q)
    (fun o k => match o with | some z => z.toNat + k | none => 3 * k)
    (fun o k => match o with | some z => z.toNat + k | none => 7 * k + 1)
    c1suite c2run c2run { bootstrap_resamples := 2, bootstrap_seed := some 5 } 5
    rfl (fun z k => rfl)

/-! ### Runner abort on non-coercible metric input (C9) -/

theorem toFloatList_mem_null (values : List J) (h : J.null ∈ values) :
    ∃ msg, toFloatList values = .error msg := by
  induction values with
  | nil => exact absurd h (List.not_mem_nil _)
  | cons v rest ih =>
      unfold toFloatList
      cases hv : v.toFloat with
      | none => exact ⟨_, rfl⟩
      | some q =>
          rcases List.mem_cons.mp h with rfl | hmem
          · simp [J.toFloat] at hv
          · obtain ⟨msg, hmsg⟩ := ih hmem
            rw [hmsg]
            exact ⟨msg, rfl⟩

theorem computeMetric_numeric_error (sq : ℚ → ℚ) (metric : String)
    (ev pv : List J) (pl : J) (msg : String)
    (hm : metric = "mae" ∨ metric = "rmse")
    (hlen : ev.length = pv.length) (hne : ev.isEmpty = false)
    (herr : toFloatList ev = .error msg) :
    computeMetric sq metric ev pv pl = .error msg := by
  rcases hm with rfl | rfl <;> simp [computeMetric, hlen, hne, herr]

theorem runTask_error_on_null_expected (sq : ℚ → ℚ) (task : BenchmarkTask)
    (adapter : ModelAdapter)
    (hmetric : task.metric = "mae" ∨ task.metric = "rmse")
    (hcase : ∃ bc ∈ task.cases,
      jGetD bc.expected task.expected_key = J.null ∧
      ∃ out, adapter.predict task bc = .ok out ∧
        (jLookup out task.prediction_key).isSome) :
    ∃ msg, runTask sq task adapter = .error msg := by
  obtain ⟨bc, hbc, hnull, out, hout, hkey⟩ := hcase
  rcases Option.isSome_iff_exists.mp hkey with ⟨pv, hpv⟩
  have hpair : (runCase task adapter bc).2 = some (J.null, pv) := by
    unfold runCase
    rw [hout]
    dsimp only
    rw [hpv]
    dsimp only
    rw [hnull]
  have hmempair : (J.null, pv) ∈
      (task.cases.map (runCase task adapter)).filterMap (fun o => o.2) := by
    apply List.mem_filterMap.mpr
    exact ⟨runCase task adapter bc, List.mem_map_of_mem _ hbc, hpair⟩
  have hmemnull : J.null ∈
      ((task.cases.map (runCase task adapter)).filterMap (fun o => o.2)).map
        (fun p => p.1) :=
    List.mem_map_of_mem _ hmempair
  have hne : ((task.cases.map (runCase task adapter)).filterMap (fun o => o.2)).map
      (fun p => p.1) ≠ [] := List.ne_nil_of_mem hmemnull
  have hnef : (((task.cases.map (runCase task adapter)).filterMap (fun o => o.2)).map
      (fun p => p.1)).isEmpty = false := by
    cases hc : ((task.cases.map (runCase task adapter)).filterMap (fun o => o.2)).map
        (fun p => p.1) with
    | nil => exact absurd hc hne
    | cons a t => rfl
  obtain ⟨msg, herr⟩ := toFloatList_mem_null _ hmemnull
  have hcm := computeMetric_numeric_error sq task.metric
    (((task.cases.map (runCase task adapter)).filterMap (fun o => o.2)).map
      (fun p => p.1))
    (((task.cases.map (runCase task adapter)).filterMap (fun o => o.2)).map
      (fun p => p.2))
    task.positive_label msg hmetric (by simp) hnef herr
  unfold runTask
  try dsimp only
  rw [hnef]
  try dsimp only
  rw [hcm]
  exact ⟨msg, rfl⟩

theorem runTasks_error (sq : ℚ → ℚ) (adapter : ModelAdapter) :
    ∀ (tasks : List BenchmarkTask) (task : BenchmarkTask),
      task ∈ tasks → (∃ msg, runTask sq task adapter = .error msg) →
      ∃ msg, runTasks sq adapter tasks = .error msg
  | [], task, hmem, _ => absurd hmem (List.not_mem_nil task)
  | t :: rest, task, hmem, herr => by
      unfold runTasks
      cases ht : runTask sq t adapter with
      | error msg => exact ⟨msg, rfl⟩
      | ok result =>
          rcases List.mem_cons.mp hmem with rfl | hmem2
          · obtain ⟨msg, hmsg⟩ := herr
            rw [ht] at hmsg
            exact absurd hmsg (by simp)
          · obtain ⟨msg, hmsg⟩ := runTasks_error sq adapter rest task hmem2 herr
            rw [hmsg]
            exact ⟨msg, rfl⟩

/-- C9, implicit claim: run_benchmark isolates only prediction-source
failures and missing prediction keys; when a task whose metric is mae or
rmse has a case that succeeds (the adapter returns a mapping containing the
prediction key) while its expected value is null (e.g. the expected key is
absent from the case), the task-level compute_metric call raises and the
whole run aborts with an error instead of recording a case failure. -/
theorem runner_aborts_on_noncoercible_expected (sq : ℚ → ℚ)
    (runId startedAt finishedAt : String) (suite : BenchmarkSuite)
    (adapter : ModelAdapter) (provenance : List (String × J))
    (task : BenchmarkTask) (hmem : task ∈ suite.tasks)
    (hmetric : task.metric = "mae" ∨ task.metric = "rmse")
    (hcase : ∃ bc ∈ task.cases,
      jGetD bc.expected task.expected_key = J.null ∧
      ∃ out, adapter.predict task bc = .ok out ∧
        (jLookup out task.prediction_key).isSome) :
    ∃ msg, runBenchmark sq runId startedAt finishedAt suite adapter
      provenance = .error msg := by
  obtain ⟨msg, hmsg⟩ := runTasks_error sq adapter suite.tasks task hmem
    (runTask_error_on_null_expected sq task adapter hmetric hcase)
  unfold runBenchmark
  rw [hmsg]
  exact ⟨msg, rfl⟩

/-- A closed instantiation of `runner_aborts_on_noncoercible_expected`
discharging its hypotheses at a concrete input: an adapter that always
answers with the prediction key, a mae task whose only case lacks the
expected key. -/
theorem runner_aborts_on_noncoercible_expected_witness :
    ∃ msg, runBenchmark (fun q => q) "rid" "st" "fi"
      { name := "s", version := "1", description := "",
        tasks := [{ task_id := "t1", metric := "mae", prediction_key := "out",
                    expected_key := "out",
                    cases := [{ case_id := "c1", input := [],
                                expected := [("other", .int 1)], tags := [] }] }] }
      { name := "const", predict := fun _ _ => .ok [("out", .int 2)] } [] =
      .error msg :=
  runner_aborts_on_noncoercible_expected (fun q => q) "rid" "st" "fi"
    { name := "s", version := "1", description := "",
      tasks := [{ task_id := "t1", metric := "mae", prediction_key := "out",
                  expected_key := "out",
                  cases := [{ case_id := "c1", input := [],
                              expected := [("other", .int 1)], tags := [] }] }] }
    { name := "const", predict := fun _ _ => .ok [("out", .int 2)] } []
    { task_id := "t1", metric := "mae", prediction_key := "out",
      expected_key := "out",
      cases := [{ case_id := "c1", input := [], expected := [("other", .int 1)],
                  tags := [] }] }
    (by simp) (Or.inl rfl)
    ⟨{ case_id := "c1", input := [], expected := [("other", .int 1)], tags := [] },
      by simp, by with_unfolding_all rfl,
      [("out", .int 2)], rfl, by with_unfolding_all rfl⟩

/-! ### Metric checking at the validation boundary (C10) -/

/-- An otherwise-valid run payload whose single task carries the given metric
string (direction higher). -/
def p0 (metric : String) : J :=
  .obj [("run_id", .str "r1"), ("suite_name", .str "s"),
        ("suite_version", .str "1"), ("adapter", .str "golden"),
        ("started_at", .str "t0"), ("finished_at", .str "t1"),
        ("summary", .obj [("tasks_total", .int 1), ("tasks_with_errors", .int 0),
          ("cases_total", .int 1), ("case_failures", .int 0),
          ("all_cases_succeeded", .bool true)]),
        ("task_results", .arr [.obj [("task_id", .str "t1"),
          ("metric", .str metric), ("direction", .str "higher"),
          ("score", .num 1), ("cases_total", .int 1), ("case_failures", .int 0),
          ("case_results", .arr [.obj [("case_id", .str "c1"),
            ("expected", .int 1), ("predicted", .int 1),
            ("duration_ms", .num 0), ("error", J.null)]])]]),
        ("provenance", .obj [])]

/-- A suite matching `p0` structurally whose task metric is accuracy. -/
def p0suite : BenchmarkSuite :=
  { name := "s", version := "1", description := "",
    tasks := [{ task_id := "t1", metric := "accuracy", prediction_key := "out",
                expected_key := "out",
                cases := [{ case_id := "c1", input := [], expected := [],
                            tags := [] }] }] }

/-- C10, counterexample: the claim says any non-empty metric string is
accepted without a suite; the whitespace string is non-empty and the
direction is higher, yet validation rejects the payload (the validator
requires the string to be non-blank after stripping). -/
theorem metric_blank_string_rejected :
    (" " : String) ≠ "" ∧
    ∃ msg, validateRunArtifact (p0 " ") "run" none = .error msg := by
  constructor
  · with_unfolding_all decide
  · with_unfolding_all exact ⟨_, rfl⟩

/-- C10, amended claim: when called without a suite, validate_run_artifact
accepts any task metric string that is non-blank after stripping whitespace —
it is never checked against the supported set {mae, rmse, accuracy,
exact_match, f1} — as long as direction is higher or lower; the
metric-vs-suite canonical cross-check happens only when a suite is supplied
(here the same payload with an unsupported metric is rejected against the
suite). -/
theorem metric_unchecked_without_suite (m : String) (hm : m.trim ≠ "") :
    (∃ r, validateRunArtifact (p0 m) "run" none = .ok r) ∧
    (∃ msg, validateRunArtifact (p0 "not_a_metric") "run" (some p0suite) =
      .error msg) := by
  constructor
  · have e1 : "r1".trim = "r1" := by with_unfolding_all rfl
    have e2 : "s".trim = "s" := by with_unfolding_all rfl
    have e3 : "1".trim = "1" := by with_unfolding_all rfl
    have e4 : "golden".trim = "golden" := by with_unfolding_all rfl
    have e5 : "t0".trim = "t0" := by with_unfolding_all rfl
    have e6 : "t1".trim = "t1" := by with_unfolding_all rfl
    have e7 : "higher".trim = "higher" := by with_unfolding_all rfl
    have e8 : "c1".trim = "c1" := by with_unfolding_all rfl
    simp [validateRunArtifact, p0, requireMapping, validateKeySet,
      topLevelKeys, summaryKeys, taskKeys, caseKeys, jGetD, jLookup,
      requireNonEmptyStr, requireNonNegativeInt, requireBool,
      requireFiniteNumber, requireNonNegativeFiniteNumber,
      requireOptionalFiniteNumber, requireList, validateTasks, validateTask,
      validateCases, validateCross, List.find?, List.map, List.filter,
      List.contains, List.elem, List.length, List.countP, List.countP.go, hm,
      lt_self_iff_false, List.sum, e1, e2, e3, e4, e5, e6, e7, e8]
  · with_unfolding_all exact ⟨_, rfl⟩

/-- A closed instantiation of `metric_unchecked_without_suite` discharging
its hypotheses at a concrete unsupported metric string. -/
theorem metric_unchecked_without_suite_witness :
    (∃ r, validateRunArtifact (p0 "definitely_not_a_metric") "run" none =
      .ok r) ∧
    (∃ msg, validateRunArtifact (p0 "not_a_metric") "run" (some p0suite) =
      .error msg) :=
  metric_unchecked_without_suite "definitely_not_a_metric"
    (by with_unfolding_all decide)

/-! ### Cross-consistency of accepted artifacts (C4)

Spec-level readers over a raw payload, used to state what acceptance
guarantees.  They follow the specification wording (counts, sums and null
checks over the payload), not the validator code. -/

/-- Field of an object payload (null when absent or not an object). -/
def jField (v : J) (k : String) : J :=
  match v with
  | .obj fs => jGetD fs k
  | _ => J.null

/-- Natural-number field (0 when not a non-negative int; acceptance
guarantees the real value). -/
def jNatField (v : J) (k : String) : ℕ :=
  match jField v k with
  | .int n => n.toNat
  | _ => 0

/-- Boolean field. -/
def jBoolField (v : J) (k : String) : Bool :=
  match jField v k with
  | .bool b => b
  | _ => false

/-- Stripped string field (identifiers are compared stripped). -/
def jStrField (v : J) (k : String) : String :=
  match jField v k with
  | .str s => s.trim
  | _ => ""

/-- The task entries of a payload. -/
def jTasks (p : J) : List J :=
  match jField p "task_results" with
  | .arr ts => ts
  | _ => []

/-- The case entries of a task entry. -/
def jCaseList (t : J) : List J :=
  match jField t "case_results" with
  | .arr cs => cs
  | _ => []

/-- Whether a case entry declares a non-null error. -/
def errIsSome (c : J) : Bool :=
  match jField c "error" with
  | .null => false
  | _ => true

/-- Whether a task entry carries a null score. -/
def scoreIsNull (t : J) : Bool :=
  match jField t "score" with
  | .null => true
  | _ => false

theorem requireMapping_ok {v : J} {path : String} {fs : List (String × J)}
    (h : requireMapping v path = .ok fs) : v = .obj fs := by
  cases v <;> simp [requireMapping] at h <;> rw [h]

theorem requireList_ok {v : J} {path : String} {xs : List J}
    (h : requireList v path = .ok xs) : v = .arr xs := by
  cases v <;> simp [requireList] at h <;> rw [h]

theorem requireNonEmptyStr_ok {v : J} {path : String} {s : String}
    (h : requireNonEmptyStr v path = .ok s) :
    ∃ raw, v = .str raw ∧ s = raw.trim ∧ raw.trim ≠ "" := by
  cases v <;> simp [requireNonEmptyStr] at h
  case str raw =>
    by_cases he : raw.trim = ""
    · rw [if_pos he] at h
      exact absurd h (by simp)
    · rw [if_neg he] at h
      exact ⟨raw, rfl, (Except.ok.inj h).symm, he⟩

theorem requireNonNegativeInt_ok {v : J} {path : String} {n : ℕ}
    (h : requireNonNegativeInt v path = .ok n) : v = .int (n : ℤ) := by
  cases v <;> simp [requireNonNegativeInt] at h
  case int m =>
    by_cases hm : m < 0
    · rw [if_pos hm] at h
      exact absurd h (by simp)
    · rw [if_neg hm] at h
      have : m.toNat = n := Except.ok.inj h
      rw [← this, Int.toNat_of_nonneg (not_lt.mp hm)]

theorem requireBool_ok {v : J} {path : String} {b : Bool}
    (h : requireBool v path = .ok b) : v = .bool b := by
  cases v <;> simp [requireBool] at h <;> rw [h]

theorem validateCases_ok (taskPath : String) :
    ∀ (cases0 : List J) (idx : ℕ) (seen : List String) (obs observed : ℕ),
      validateCases taskPath cases0 idx seen obs = .ok observed →
      observed = obs + cases0.countP errIsSome ∧
      (cases0.map (fun c => jStrField c "case_id")).Nodup ∧
      ∀ s ∈ cases0.map (fun c => jStrField c "case_id"), s ∉ seen
  | [], idx, seen, obs, observed, h => by
      unfold validateCases at h
      have hobs : obs = observed := Except.ok.inj h
      subst hobs
      exact ⟨by simp, by simp, by simp⟩
  | c :: rest, idx, seen, obs, observed, h => by
      unfold validateCases at h
      dsimp only at h
      cases h1 : requireMapping c
          (taskPath ++ ".case_results[" ++ toString idx ++ "]") with
      | error msg => rw [h1] at h; exact Except.noConfusion h
      | ok cfields =>
      rw [h1] at h
      dsimp only at h
      obtain rfl := requireMapping_ok h1
      cases h2 : validateKeySet cfields caseKeys
          (taskPath ++ ".case_results[" ++ toString idx ++ "]") with
      | error msg => rw [h2] at h; exact Except.noConfusion h
      | ok u =>
      rw [h2] at h
      dsimp only at h
      cases h3 : requireNonEmptyStr (jGetD cfields "case_id")
          (taskPath ++ ".case_results[" ++ toString idx ++ "]" ++ ".case_id") with
      | error msg => rw [h3] at h; exact Except.noConfusion h
      | ok caseId =>
      rw [h3] at h
      dsimp only at h
      by_cases h4 : seen.contains caseId
      · rw [if_pos h4] at h
        exact Except.noConfusion h
      rw [if_neg h4] at h
      cases h5 : requireNonNegativeFiniteNumber (jGetD cfields "duration_ms")
          (taskPath ++ ".case_results[" ++ toString idx ++ "]" ++ ".duration_ms") with
      | error msg => rw [h5] at h; exact Except.noConfusion h
      | ok dur =>
      rw [h5] at h
      dsimp only at h
      obtain ⟨raw, hcraw, hcid, hnb⟩ := requireNonEmptyStr_ok h3
      have hsid : jStrField (J.obj cfields) "case_id" = caseId := by
        simp [jStrField, jField, hcraw, hcid]
      have hnotinseen : caseId ∉ seen := by
        simpa using h4
      cases h6 : jGetD cfields "error" with
      | null =>
          rw [h6] at h
          obtain ⟨hobs, hnodup, hnotin⟩ :=
            validateCases_ok taskPath rest (idx + 1) (caseId :: seen) obs observed h
          have herr : errIsSome (J.obj cfields) = false := by
            simp [errIsSome, jField, h6]
          refine ⟨?_, ?_, ?_⟩
          · rw [hobs, List.countP_cons, herr]
            simp
          · rw [List.map_cons, hsid, List.nodup_cons]
            refine ⟨?_, hnodup⟩
            intro hmem
            exact (hnotin caseId hmem) (List.mem_cons_self _ _)
          · intro s hs
            rw [List.map_cons, hsid] at hs
            rcases List.mem_cons.mp hs with rfl | hs2
            · exact hnotinseen
            · intro hmem
              exact (hnotin s hs2) (List.mem_cons_of_mem _ hmem)
      | str es =>
          rw [h6] at h
          obtain ⟨hobs, hnodup, hnotin⟩ :=
            validateCases_ok taskPath rest (idx + 1) (caseId :: seen) (obs + 1) observed h
          have herr : errIsSome (J.obj cfields) = true := by
            simp [errIsSome, jField, h6]
          refine ⟨?_, ?_, ?_⟩
          · rw [hobs, List.countP_cons, herr]
            simp
            omega
          · rw [List.map_cons, hsid, List.nodup_cons]
            refine ⟨?_, hnodup⟩
            intro hmem
            exact (hnotin caseId hmem) (List.mem_cons_self _ _)
          · intro s hs
            rw [List.map_cons, hsid] at hs
            rcases List.mem_cons.mp hs with rfl | hs2
            · exact hnotinseen
            · intro hmem
              exact (hnotin s hs2) (List.mem_cons_of_mem _ hmem)
      | bool b => rw [h6] at h; exact Except.noConfusion h
      | int n => rw [h6] at h; exact Except.noConfusion h
      | num q => rw [h6] at h; exact Except.noConfusion h
      | arr xs => rw [h6] at h; exact Except.noConfusion h
      | obj fs2 => rw [h6] at h; exact Except.noConfusion h

theorem validateTask_ok {source : String} {tItem : J} {idx : ℕ}
    {seen : List String} {check : TaskCheck}
    (h : validateTask source tItem idx seen = .ok check) :
    tItem = .obj check.fields ∧
    check.task_id = jStrField tItem "task_id" ∧
    check.task_id ∉ seen ∧
    check.cases_total = jNatField tItem "cases_total" ∧
    check.case_failures = jNatField tItem "case_failures" ∧
    check.score_is_null = scoreIsNull tItem ∧
    jNatField tItem "case_failures" ≤ jNatField tItem "cases_total" ∧
    (jCaseList tItem).length = jNatField tItem "cases_total" ∧
    ((jCaseList tItem).map (fun c => jStrField c "case_id")).Nodup ∧
    (jCaseList tItem).countP errIsSome = jNatField tItem "case_failures" := by
  unfold validateTask at h
  dsimp only at h
  cases h1 : requireMapping tItem
      (source ++ ".task_results[" ++ toString idx ++ "]") with
  | error msg => rw [h1] at h; exact Except.noConfusion h
  | ok task =>
  rw [h1] at h
  dsimp only at h
  obtain rfl := requireMapping_ok h1
  cases h2 : validateKeySet task taskKeys
      (source ++ ".task_results[" ++ toString idx ++ "]") with
  | error msg => rw [h2] at h; exact Except.noConfusion h
  | ok u =>
  rw [h2] at h
  dsimp only at h
  cases h3 : requireNonEmptyStr (jGetD task "task_id")
      (source ++ ".task_results[" ++ toString idx ++ "]" ++ ".task_id") with
  | error msg => rw [h3] at h; exact Except.noConfusion h
  | ok taskId =>
  rw [h3] at h
  dsimp only at h
  by_cases h4 : seen.contains taskId
  · rw [if_pos h4] at h
    exact Except.noConfusion h
  rw [if_neg h4] at h
  cases h5 : requireNonEmptyStr (jGetD task "metric")
      (source ++ ".task_results[" ++ toString idx ++ "]" ++ ".metric") with
  | error msg => rw [h5] at h; exact Except.noConfusion h
  | ok metricStr =>
  rw [h5] at h
  dsimp only at h
  cases h6 : requireNonEmptyStr (jGetD task "direction")
      (source ++ ".task_results[" ++ toString idx ++ "]" ++ ".direction") with
  | error msg => rw [h6] at h; exact Except.noConfusion h
  | ok direction =>
  rw [h6] at h
  dsimp only at h
  by_cases h7 : direction ≠ "higher" ∧ direction ≠ "lower"
  · rw [if_pos h7] at h
    exact Except.noConfusion h
  rw [if_neg h7] at h
  cases h8 : requireOptionalFiniteNumber (jGetD task "score")
      (source ++ ".task_results[" ++ toString idx ++ "]" ++ ".score") with
  | error msg => rw [h8] at h; exact Except.noConfusion h
  | ok scoreOpt =>
  rw [h8] at h
  dsimp only at h
  cases h9 : requireNonNegativeInt (jGetD task "cases_total")
      (source ++ ".task_results[" ++ toString idx ++ "]" ++ ".cases_total") with
  | error msg => rw [h9] at h; exact Except.noConfusion h
  | ok casesTotal =>
  rw [h9] at h
  dsimp only at h
  cases h10 : requireNonNegativeInt (jGetD task "case_failures")
      (source ++ ".task_results[" ++ toString idx ++ "]" ++ ".case_failures") with
  | error msg => rw [h10] at h; exact Except.noConfusion h
  | ok caseFailures =>
  rw [h10] at h
  dsimp only at h
  by_cases h11 : casesTotal < caseFailures
  · rw [if_pos h11] at h
    exact Except.noConfusion h
  rw [if_neg h11] at h
  cases h12 : requireList (jGetD task "case_results")
      (source ++ ".task_results[" ++ toString idx ++ "]" ++ ".case_results") with
  | error msg => rw [h12] at h; exact Except.noConfusion h
  | ok caseResults =>
  rw [h12] at h
  dsimp only at h
  by_cases h13 : caseResults.length ≠ casesTotal
  · rw [if_pos h13] at h
    exact Except.noConfusion h
  rw [if_neg h13] at h
  cases h14 : validateCases
      (source ++ ".task_results[" ++ toString idx ++ "]") caseResults 0 [] 0 with
  | error msg => rw [h14] at h; exact Except.noConfusion h
  | ok observed =>
  rw [h14] at h
  dsimp only at h
  by_cases h15 : observed ≠ caseFailures
  · rw [if_pos h15] at h
    exact Except.noConfusion h
  rw [if_neg h15] at h
  have hcheck := (Except.ok.inj h).symm
  obtain ⟨hraw, hidraw, hidtrim, hidnb⟩ := requireNonEmptyStr_ok h3
  have hnat_ct : jNatField (J.obj task) "cases_total" = casesTotal := by
    simp [jNatField, jField, requireNonNegativeInt_ok h9]
  have hnat_cf : jNatField (J.obj task) "case_failures" = caseFailures := by
    simp [jNatField, jField, requireNonNegativeInt_ok h10]
  have hcases : jCaseList (J.obj task) = caseResults := by
    simp [jCaseList, jField, requireList_ok h12]
  obtain ⟨hobs, hnodup, _⟩ := validateCases_ok _ caseResults 0 [] 0 observed h14
  subst hcheck
  refine ⟨rfl, ?_, ?_, ?_, ?_, ?_, ?_, ?_, ?_, ?_⟩
  · simp [jStrField, jField, hidraw, hidtrim]
  · simpa using h4
  · exact hnat_ct.symm
  · exact hnat_cf.symm
  · simp [scoreIsNull, jField]
  · rw [hnat_ct, hnat_cf]
    omega
  · rw [hcases, hnat_ct]
    omega
  · rw [hcases]
    exact hnodup
  · rw [hcases, hnat_cf]
    omega

theorem validateTasks_ok (source : String) :
    ∀ (ts : List J) (idx : ℕ) (seen : List String) (checks : List TaskCheck),
      validateTasks source ts idx seen = .ok checks →
      (∀ t ∈ ts,
        jNatField t "case_failures" ≤ jNatField t "cases_total" ∧
        (jCaseList t).length = jNatField t "cases_total" ∧
        ((jCaseList t).map (fun c => jStrField c "case_id")).Nodup ∧
        (jCaseList t).countP errIsSome = jNatField t "case_failures") ∧
      checks.map (fun c => c.cases_total) =
        ts.map (fun t => jNatField t "cases_total") ∧
      checks.map (fun c => c.case_failures) =
        ts.map (fun t => jNatField t "case_failures") ∧
      checks.map (fun c => (c.case_failures, c.score_is_null)) =
        ts.map (fun t => (jNatField t "case_failures", scoreIsNull t)) ∧
      checks.length = ts.length
  | [], idx, seen, checks, h => by
      unfold validateTasks at h
      have hc : ([] : List TaskCheck) = checks := Except.ok.inj h
      subst hc
      exact ⟨by simp, rfl, rfl, rfl, rfl⟩
  | tItem :: rest, idx, seen, checks, h => by
      unfold validateTasks at h
      cases h1 : validateTask source tItem idx seen with
      | error msg => rw [h1] at h; exact Except.noConfusion h
      | ok check =>
      rw [h1] at h
      dsimp only at h
      cases h2 : validateTasks source rest (idx + 1) (check.task_id :: seen) with
      | error msg => rw [h2] at h; exact Except.noConfusion h
      | ok checks2 =>
      rw [h2] at h
      dsimp only at h
      have hc : check :: checks2 = checks := Except.ok.inj h
      subst hc
      obtain ⟨hfields, hid, hnotin, hct, hcf, hsn, hle, hlen, hnodup, hcount⟩ :=
        validateTask_ok h1
      obtain ⟨hall, hm1, hm2, hm3, hlen2⟩ :=
        validateTasks_ok source rest (idx + 1) (check.task_id :: seen) checks2 h2
      refine ⟨?_, ?_, ?_, ?_, ?_⟩
      · intro t ht
        rcases List.mem_cons.mp ht with rfl | ht2
        · exact ⟨hle, hlen, hnodup, hcount⟩
        · exact hall t ht2
      · rw [List.map_cons, List.map_cons, hm1, hct]
      · rw [List.map_cons, List.map_cons, hm2, hcf]
      · rw [List.map_cons, List.map_cons, hm3, hcf, hsn]
      · simp [hlen2]

/-- The C4 mutation payload: the fixed single-task record with the five
summary counters as parameters (the consistent values are 1, 0, 1, 0,
true). -/
def p4 (tt te ct cf : ℤ) (acs : Bool) : J :=
  .obj [("run_id", .str "r1"), ("suite_name", .str "s"),
        ("suite_version", .str "1"), ("adapter", .str "golden"),
        ("started_at", .str "t0"), ("finished_at", .str "t1"),
        ("summary", .obj [("tasks_total", .int tt), ("tasks_with_errors", .int te),
          ("cases_total", .int ct), ("case_failures", .int cf),
          ("all_cases_succeeded", .bool acs)]),
        ("task_results", .arr [.obj [("task_id", .str "t1"),
          ("metric", .str "accuracy"), ("direction", .str "higher"),
          ("score", .num 1), ("cases_total", .int 1), ("case_failures", .int 0),
          ("case_results", .arr [.obj [("case_id", .str "c1"),
            ("expected", .int 1), ("predicted", .int 1),
            ("duration_ms", .num 0), ("error", J.null)]])]]),
        ("provenance", .obj [])]

/-- C4, claim: validate_run_artifact accepts a run payload only if every
cross-consistency condition holds — per task case_failures ≤ cases_total,
len(case_results) = cases_total, case ids unique within the task, the count
of cases with non-null error equals the declared case_failures; and
summary.tasks_total equals the number of task entries, summary.cases_total
and summary.case_failures equal the sums over tasks, summary.tasks_with_errors
equals the count of tasks with case_failures > 0 or null score, and
all_cases_succeeded equals (case_failures = 0) — and mutating any single
summary counter of the otherwise-valid record `p4 1 0 1 0 true` makes the
whole call raise with a message naming the offending path; nothing is
partially accepted. -/
theorem validate_accepts_only_consistent :
    (∀ (p : J) (source : String) (suite : Option BenchmarkSuite) (r : J),
      validateRunArtifact p source suite = .ok r →
        (∀ t ∈ jTasks p,
          jNatField t "case_failures" ≤ jNatField t "cases_total" ∧
          (jCaseList t).length = jNatField t "cases_total" ∧
          ((jCaseList t).map (fun c => jStrField c "case_id")).Nodup ∧
          (jCaseList t).countP errIsSome = jNatField t "case_failures") ∧
        jNatField (jField p "summary") "tasks_total" = (jTasks p).length ∧
        jNatField (jField p "summary") "cases_total" =
          ((jTasks p).map (fun t => jNatField t "cases_total")).sum ∧
        jNatField (jField p "summary") "case_failures" =
          ((jTasks p).map (fun t => jNatField t "case_failures")).sum ∧
        jNatField (jField p "summary") "tasks_with_errors" =
          (jTasks p).countP
            (fun t => decide (0 < jNatField t "case_failures") || scoreIsNull t) ∧
        jBoolField (jField p "summary") "all_cases_succeeded" =
          decide (jNatField (jField p "summary") "case_failures" = 0)) ∧
    (∃ r, validateRunArtifact (p4 1 0 1 0 true) "run" none = .ok r) ∧
    validateRunArtifact (p4 2 0 1 0 true) "run" none =
      .error "run.summary.tasks_total=2 does not match len(task_results)=1" ∧
    validateRunArtifact (p4 1 1 1 0 true) "run" none =
      .error "run.summary.tasks_with_errors=1 does not match observed value 0" ∧
    validateRunArtifact (p4 1 0 2 0 true) "run" none =
      .error "run.summary.cases_total=2 does not match sum(task.cases_total)=1" ∧
    validateRunArtifact (p4 1 0 1 1 true) "run" none =
      .error "run.summary.case_failures=1 does not match sum(task.case_failures)=0" ∧
    validateRunArtifact (p4 1 0 1 0 false) "run" none =
      .error
        "run.summary.all_cases_succeeded=false does not match (case_failures == 0)=true" := by
  refine ⟨?_, by with_unfolding_all exact ⟨_, rfl⟩, by with_unfolding_all rfl,
    by with_unfolding_all rfl, by with_unfolding_all rfl,
    by with_unfolding_all rfl, by with_unfolding_all rfl⟩
  intro p source suite r h
  unfold validateRunArtifact at h
  try dsimp only at h
  cases h1 : requireMapping p source with
  | error msg => rw [h1] at h; (try dsimp only at h); exact Except.noConfusion h
  | ok run =>
  rw [h1] at h
  dsimp only at h
  obtain rfl := requireMapping_ok h1
  cases h2 : validateKeySet run topLevelKeys source with
  | error msg => rw [h2] at h; (try dsimp only at h); exact Except.noConfusion h
  | ok u =>
  rw [h2] at h
  dsimp only at h
  cases h3 : requireNonEmptyStr (jGetD run "run_id") (source ++ ".run_id") <;>
    cases h4 : requireNonEmptyStr (jGetD run "suite_name") (source ++ ".suite_name") <;>
    cases h5 : requireNonEmptyStr (jGetD run "suite_version") (source ++ ".suite_version") <;>
    rw [h3, h4, h5] at h <;>
    (try dsimp only at h) <;>
    try exact Except.noConfusion h
  cases h6 : requireNonEmptyStr (jGetD run "adapter") (source ++ ".adapter") <;>
    cases h7 : requireNonEmptyStr (jGetD run "started_at") (source ++ ".started_at") <;>
    cases h8 : requireNonEmptyStr (jGetD run "finished_at") (source ++ ".finished_at") <;>
    rw [h6, h7, h8] at h <;>
    (try dsimp only at h) <;>
    try exact Except.noConfusion h
  cases h9 : requireMapping (jGetD run "summary") (source ++ ".summary") with
  | error msg => rw [h9] at h; (try dsimp only at h); exact Except.noConfusion h
  | ok summary =>
  rw [h9] at h
  dsimp only at h
  cases h10 : validateKeySet summary summaryKeys (source ++ ".summary") with
  | error msg => rw [h10] at h; (try dsimp only at h); exact Except.noConfusion h
  | ok u2 =>
  rw [h10] at h
  dsimp only at h
  cases h11 : requireNonNegativeInt (jGetD summary "tasks_total")
      (source ++ ".summary.tasks_total") <;>
    cases h12 : requireNonNegativeInt (jGetD summary "tasks_with_errors")
      (source ++ ".summary.tasks_with_errors") <;>
    cases h13 : requireNonNegativeInt (jGetD summary "cases_total")
      (source ++ ".summary.cases_total") <;>
    cases h14 : requireNonNegativeInt (jGetD summary "case_failures")
      (source ++ ".summary.case_failures") <;>
    cases h15 : requireBool (jGetD summary "all_cases_succeeded")
      (source ++ ".summary.all_cases_succeeded") <;>
    rw [h11, h12, h13, h14, h15] at h <;>
    (try dsimp only at h) <;>
    try exact Except.noConfusion h
  rename_i stt ste sct scf sacs
  cases h16 : requireList (jGetD run "task_results") (source ++ ".task_results") with
  | error msg => rw [h16] at h; (try dsimp only at h); exact Except.noConfusion h
  | ok ts =>
  rw [h16] at h
  dsimp only at h
  cases h17 : requireMapping (jGetD run "provenance") (source ++ ".provenance") with
  | error msg => rw [h17] at h; (try dsimp only at h); exact Except.noConfusion h
  | ok prov =>
  rw [h17] at h
  dsimp only at h
  cases h18 : validateTasks source ts 0 [] with
  | error msg => rw [h18] at h; (try dsimp only at h); exact Except.noConfusion h
  | ok checks =>
  rw [h18] at h
  dsimp only at h
  unfold validateCross at h
  dsimp only at h
  by_cases c1 : stt ≠ ts.length
  · rw [if_pos c1] at h
    exact Except.noConfusion h
  rw [if_neg c1] at h
  by_cases c2 : sct ≠ (checks.map (fun c => c.cases_total)).sum
  · rw [if_pos c2] at h
    exact Except.noConfusion h
  rw [if_neg c2] at h
  by_cases c3 : scf ≠ (checks.map (fun c => c.case_failures)).sum
  · rw [if_pos c3] at h
    exact Except.noConfusion h
  rw [if_neg c3] at h
  by_cases c4 : ste ≠ checks.countP (fun c => decide (0 < c.case_failures) || c.score_is_null)
  · rw [if_pos c4] at h
    exact Except.noConfusion h
  rw [if_neg c4] at h
  by_cases c5 : sacs ≠ decide (scf = 0)
  · rw [if_pos c5] at h
    exact Except.noConfusion h
  rw [if_neg c5] at h
  obtain ⟨hall, hm1, hm2, hm3, hlen⟩ := validateTasks_ok source ts 0 [] checks h18
  have htasks : jTasks (J.obj run) = ts := by
    simp [jTasks, jField, requireList_ok h16]
  have hsummary : jField (J.obj run) "summary" = .obj summary := by
    simp [jField, requireMapping_ok h9]
  have hstt : jNatField (jField (J.obj run) "summary") "tasks_total" = stt := by
    rw [hsummary]
    simp [jNatField, jField, requireNonNegativeInt_ok h11]
  have hste : jNatField (jField (J.obj run) "summary") "tasks_with_errors" = ste := by
    rw [hsummary]
    simp [jNatField, jField, requireNonNegativeInt_ok h12]
  have hsct : jNatField (jField (J.obj run) "summary") "cases_total" = sct := by
    rw [hsummary]
    simp [jNatField, jField, requireNonNegativeInt_ok h13]
  have hscf : jNatField (jField (J.obj run) "summary") "case_failures" = scf := by
    rw [hsummary]
    simp [jNatField, jField, requireNonNegativeInt_ok h14]
  have hsacs : jBoolField (jField (J.obj run) "summary") "all_cases_succeeded" = sacs := by
    rw [hsummary]
    simp [jBoolField, jField, requireBool_ok h15]
  refine ⟨?_, ?_, ?_, ?_, ?_, ?_⟩
  · rw [htasks]
    exact hall
  · rw [htasks, hstt]
    exact not_ne_iff.mp c1
  · rw [htasks, hsct, ← hm1]
    exact not_ne_iff.mp c2
  · rw [htasks, hscf, ← hm2]
    exact not_ne_iff.mp c3
  · rw [htasks, hste]
    have hcount := congrArg
      (List.countP (fun pr : ℕ × Bool => decide (0 < pr.1) || pr.2)) hm3
    simp only [List.countP_map] at hcount
    rw [not_ne_iff.mp c4]
    convert hcount using 2
  · rw [hsacs, hscf]
    exact not_ne_iff.mp c5

/-- A closed instantiation of `validate_accepts_only_consistent` discharging
the acceptance hypothesis of its universal part at a concrete accepted
payload. -/
theorem validate_accepts_only_consistent_witness :
    validateRunArtifact (p4 1 0 1 0 true) "run" none = .ok (p4 1 0 1 0 true) ∧
    jNatField (jField (p4 1 0 1 0 true) "summary") "tasks_total" =
      (jTasks (p4 1 0 1 0 true)).length := by
  have hok : validateRunArtifact (p4 1 0 1 0 true) "run" none =
      .ok (p4 1 0 1 0 true) := by
    with_unfolding_all rfl
  exact ⟨hok,
    ((validate_accepts_only_consistent.1 (p4 1 0 1 0 true) "run" none
      (p4 1 0 1 0 true) hok).2).1⟩

/-! ### Runner/validator round trip (C3) -/

/-- A case identifier as the loader produces it: stripped and non-empty. -/
def goodCase (bc : BenchmarkCase) : Prop :=
  bc.case_id.trim = bc.case_id ∧ bc.case_id ≠ ""

/-- A task as the loader produces it: stripped non-empty identifier and
unique, stripped, non-empty case identifiers. -/
def goodTask (t : BenchmarkTask) : Prop :=
  t.task_id.trim = t.task_id ∧ t.task_id ≠ "" ∧
  (t.cases.map (fun c => c.case_id)).Nodup ∧ ∀ bc ∈ t.cases, goodCase bc

/-- A suite as the loader produces it (the loader strips `name` and the task
and case identifiers and rejects blanks and duplicates; `version` is
stringified unstripped, hence the separate assumption). -/
def goodSuite (s : BenchmarkSuite) : Prop :=
  s.name.trim = s.name ∧ s.name ≠ "" ∧ s.version.trim = s.version ∧
  s.version ≠ "" ∧ (s.tasks.map (fun t => t.task_id)).Nodup ∧
  ∀ t ∈ s.tasks, goodTask t

theorem requireNonEmptyStr_mk (s : String) (path : String) (h1 : s.trim = s)
    (h2 : s ≠ "") : requireNonEmptyStr (.str s) path = .ok s := by
  unfold requireNonEmptyStr
  dsimp only
  rw [h1, if_neg h2]

theorem requireNonNegativeInt_mk (n : ℕ) (path : String) :
    requireNonNegativeInt (.int (n : ℤ)) path = .ok n := by
  unfold requireNonNegativeInt
  dsimp only
  rw [if_neg (not_lt.mpr (Int.natCast_nonneg n))]
  simp

theorem requireNonNegativeFiniteNumber_mk (q : ℚ) (path : String)
    (h : 0 ≤ q) : requireNonNegativeFiniteNumber (.num q) path = .ok q := by
  unfold requireNonNegativeFiniteNumber requireFiniteNumber
  dsimp only
  rw [if_neg (not_lt.mpr h)]

theorem keySet_case (v1 v2 v3 v4 v5 : J) (path : String) :
    validateKeySet [("case_id", v1), ("expected", v2), ("predicted", v3),
      ("duration_ms", v4), ("error", v5)] caseKeys path = .ok () := by
  with_unfolding_all rfl

theorem keySet_task (v1 v2 v3 v4 v5 v6 v7 : J) (path : String) :
    validateKeySet [("task_id", v1), ("metric", v2), ("direction", v3),
      ("score", v4), ("cases_total", v5), ("case_failures", v6),
      ("case_results", v7)] taskKeys path = .ok () := by
  with_unfolding_all rfl

theorem keySet_top (v1 v2 v3 v4 v5 v6 v7 v8 v9 : J) (path : String) :
    validateKeySet [("run_id", v1), ("suite_name", v2), ("suite_version", v3),
      ("adapter", v4), ("started_at", v5), ("finished_at", v6),
      ("summary", v7), ("task_results", v8), ("provenance", v9)]
      topLevelKeys path = .ok () := by
  with_unfolding_all rfl

theorem keySet_summary (v1 v2 v3 v4 v5 : J) (path : String) :
    validateKeySet [("tasks_total", v1), ("tasks_with_errors", v2),
      ("cases_total", v3), ("case_failures", v4),
      ("all_cases_succeeded", v5)] summaryKeys path = .ok () := by
  with_unfolding_all rfl

theorem runCase_fields (task : BenchmarkTask) (adapter : ModelAdapter)
    (bc : BenchmarkCase) :
    (runCase task adapter bc).1.case_id = bc.case_id ∧
    (runCase task adapter bc).1.duration_ms = 0 := by
  unfold runCase
  cases adapter.predict task bc with
  | error e => exact ⟨rfl, rfl⟩
  | ok output =>
      dsimp only
      cases jLookup output task.prediction_key with
      | none => exact ⟨rfl, rfl⟩
      | some predicted => exact ⟨rfl, rfl⟩

theorem validateCases_toJ (taskPath : String) :
    ∀ (crs : List CaseResult) (idx : ℕ) (seen : List String) (obs : ℕ),
      (∀ c ∈ crs, c.case_id.trim = c.case_id ∧ c.case_id ≠ "" ∧
        (0 : ℚ) ≤ c.duration_ms) →
      (crs.map (fun c => c.case_id)).Nodup →
      (∀ c ∈ crs, c.case_id ∉ seen) →
      validateCases taskPath (crs.map CaseResult.toJ) idx seen obs =
        .ok (obs + crs.countP (fun c => c.error.isSome))
  | [], idx, seen, obs, _, _, _ => by
      unfold validateCases
      simp
  | c :: rest, idx, seen, obs, hgood, hnodup, hseen => by
      obtain ⟨hct, hcn, hdur⟩ := hgood c (List.mem_cons_self c rest)
      have hcontains : seen.contains c.case_id = false := by
        simpa using hseen c (List.mem_cons_self c rest)
      have hrestgood : ∀ c2 ∈ rest, c2.case_id.trim = c2.case_id ∧
          c2.case_id ≠ "" ∧ (0 : ℚ) ≤ c2.duration_ms :=
        fun c2 h2 => hgood c2 (List.mem_cons_of_mem c h2)
      have hrestnodup : (rest.map (fun c => c.case_id)).Nodup :=
        (List.nodup_cons.mp (by simpa using hnodup)).2
      have hheadnotin : c.case_id ∉ rest.map (fun c => c.case_id) :=
        (List.nodup_cons.mp (by simpa using hnodup)).1
      have hrestseen : ∀ c2 ∈ rest, c2.case_id ∉ (c.case_id :: seen) := by
        intro c2 h2 hmem
        rcases List.mem_cons.mp hmem with heq | hmem2
        · exact hheadnotin (heq ▸ List.mem_map_of_mem (fun c => c.case_id) h2)
        · exact hseen c2 (List.mem_cons_of_mem c h2) hmem2
      clear hgood hnodup hseen hheadnotin
      obtain ⟨cid, cexp, cpred, cdur, cerr⟩ := c
      dsimp only at hct hcn hdur hcontains hrestseen ⊢
      rw [List.map_cons]
      unfold validateCases
      dsimp only [CaseResult.toJ]
      rw [show (requireMapping
          (J.obj [("case_id", .str cid), ("expected", cexp), ("predicted", cpred),
            ("duration_ms", .num cdur),
            ("error", match cerr with | none => J.null | some e => .str e)])
          (taskPath ++ ".case_results[" ++ toString idx ++ "]")) =
        .ok [("case_id", .str cid), ("expected", cexp), ("predicted", cpred),
            ("duration_ms", .num cdur),
            ("error", match cerr with | none => J.null | some e => .str e)]
        from rfl]
      dsimp only
      rw [keySet_case]
      dsimp only
      rw [show jGetD [("case_id", J.str cid), ("expected", cexp), ("predicted", cpred),
            ("duration_ms", .num cdur),
            ("error", match cerr with | none => J.null | some e => .str e)]
          "case_id" = .str cid from by with_unfolding_all rfl]
      rw [requireNonEmptyStr_mk cid _ hct hcn]
      dsimp only
      rw [if_neg (by simpa using hcontains)]
      rw [show jGetD [("case_id", J.str cid), ("expected", cexp), ("predicted", cpred),
            ("duration_ms", .num cdur),
            ("error", match cerr with | none => J.null | some e => .str e)]
          "duration_ms" = .num cdur from by with_unfolding_all rfl]
      rw [requireNonNegativeFiniteNumber_mk cdur _ hdur]
      dsimp only
      rw [show jGetD [("case_id", J.str cid), ("expected", cexp), ("predicted", cpred),
            ("duration_ms", .num cdur),
            ("error", match cerr with | none => J.null | some e => .str e)]
          "error" = (match cerr with | none => J.null | some e => .str e)
        from by with_unfolding_all rfl]
      cases cerr with
      | none =>
          dsimp only
          rw [validateCases_toJ taskPath rest (idx + 1) (cid :: seen) obs
            hrestgood hrestnodup hrestseen]
          simp [List.countP_cons]
      | some e =>
          dsimp only
          rw [validateCases_toJ taskPath rest (idx + 1) (cid :: seen) (obs + 1)
            hrestgood hrestnodup hrestseen]
          simp [List.countP_cons]
          omega

theorem metricDirection_ok_cases {m d : String}
    (h : metricDirection m = .ok d) :
    (m = "mae" ∧ d = "lower") ∨ (m = "rmse" ∧ d = "lower") ∨
    (m = "accuracy" ∧ d = "higher") ∨ (m = "exact_match" ∧ d = "higher") ∨
    (m = "f1" ∧ d = "higher") := by
  unfold metricDirection at h
  by_cases h1 : m = "mae"
  · rw [if_pos h1] at h
    exact Or.inl ⟨h1, (Except.ok.inj h).symm⟩
  rw [if_neg h1] at h
  by_cases h2 : m = "rmse"
  · rw [if_pos h2] at h
    exact Or.inr (Or.inl ⟨h2, (Except.ok.inj h).symm⟩)
  rw [if_neg h2] at h
  by_cases h3 : m = "accuracy"
  · rw [if_pos h3] at h
    exact Or.inr (Or.inr (Or.inl ⟨h3, (Except.ok.inj h).symm⟩))
  rw [if_neg h3] at h
  by_cases h4 : m = "exact_match"
  · rw [if_pos h4] at h
    exact Or.inr (Or.inr (Or.inr (Or.inl ⟨h4, (Except.ok.inj h).symm⟩)))
  rw [if_neg h4] at h
  by_cases h5 : m = "f1"
  · rw [if_pos h5] at h
    exact Or.inr (Or.inr (Or.inr (Or.inr ⟨h5, (Except.ok.inj h).symm⟩)))
  rw [if_neg h5] at h
  exact Except.noConfusion h

theorem validateTask_toJ (source : String) (tr : TaskResult) (idx : ℕ)
    (seen : List String)
    (hid : tr.task_id.trim = tr.task_id) (hidn : tr.task_id ≠ "")
    (hnotin : seen.contains tr.task_id = false)
    (hdir : metricDirection tr.metric = .ok tr.direction)
    (hct : tr.cases_total = tr.case_results.length)
    (hcf : tr.case_failures = tr.case_results.countP (fun c => c.error.isSome))
    (hcases : ∀ c ∈ tr.case_results, c.case_id.trim = c.case_id ∧
      c.case_id ≠ "" ∧ (0 : ℚ) ≤ c.duration_ms)
    (hnodup : (tr.case_results.map (fun c => c.case_id)).Nodup) :
    validateTask source tr.toJ idx seen =
      .ok { task_id := tr.task_id,
            fields := [("task_id", .str tr.task_id), ("metric", .str tr.metric),
              ("direction", .str tr.direction),
              ("score", match tr.score with | none => J.null | some q => .num q),
              ("cases_total", .int tr.cases_total),
              ("case_failures", .int tr.case_failures),
              ("case_results", .arr (tr.case_results.map CaseResult.toJ))],
            score_is_null := tr.score.isNone,
            cases_total := tr.cases_total,
            case_failures := tr.case_failures } := by
  obtain ⟨tid, tm, td, ts, tct, tcf, tcrs⟩ := tr
  dsimp only at hid hidn hnotin hdir hct hcf hcases hnodup ⊢
  have hmetric_facts : tm.trim = tm ∧ tm ≠ "" := by
    rcases metricDirection_ok_cases hdir with ⟨hm, _⟩ | ⟨hm, _⟩ | ⟨hm, _⟩ |
      ⟨hm, _⟩ | ⟨hm, _⟩ <;> subst hm <;>
      exact ⟨by with_unfolding_all rfl, by with_unfolding_all decide⟩
  have hdir_facts : td.trim = td ∧ td ≠ "" ∧ ¬ (td ≠ "higher" ∧ td ≠ "lower") := by
    rcases metricDirection_ok_cases hdir with ⟨_, hd⟩ | ⟨_, hd⟩ | ⟨_, hd⟩ |
      ⟨_, hd⟩ | ⟨_, hd⟩ <;> subst hd <;>
      exact ⟨by with_unfolding_all rfl, by with_unfolding_all decide, by simp⟩
  unfold validateTask
  dsimp only [TaskResult.toJ]
  rw [show (requireMapping
      (J.obj [("task_id", .str tid), ("metric", .str tm), ("direction", .str td),
        ("score", match ts with | none => J.null | some q => .num q),
        ("cases_total", .int tct), ("case_failures", .int tcf),
        ("case_results", .arr (tcrs.map CaseResult.toJ))])
      (source ++ ".task_results[" ++ toString idx ++ "]")) =
    .ok [("task_id", .str tid), ("metric", .str tm), ("direction", .str td),
        ("score", match ts with | none => J.null | some q => .num q),
        ("cases_total", .int tct), ("case_failures", .int tcf),
        ("case_results", .arr (tcrs.map CaseResult.toJ))] from rfl]
  dsimp only
  rw [keySet_task]
  dsimp only
  rw [show jGetD [("task_id", J.str tid), ("metric", .str tm), ("direction", .str td),
        ("score", match ts with | none => J.null | some q => .num q),
        ("cases_total", .int tct), ("case_failures", .int tcf),
        ("case_results", .arr (tcrs.map CaseResult.toJ))] "task_id" = .str tid
    from by with_unfolding_all rfl]
  rw [requireNonEmptyStr_mk tid _ hid hidn]
  dsimp only
  rw [if_neg (by simpa using hnotin)]
  rw [show jGetD [("task_id", J.str tid), ("metric", .str tm), ("direction", .str td),
        ("score", match ts with | none => J.null | some q => .num q),
        ("cases_total", .int tct), ("case_failures", .int tcf),
        ("case_results", .arr (tcrs.map CaseResult.toJ))] "metric" = .str tm
    from by with_unfolding_all rfl]
  rw [requireNonEmptyStr_mk tm _ hmetric_facts.1 hmetric_facts.2]
  dsimp only
  rw [show jGetD [("task_id", J.str tid), ("metric", .str tm), ("direction", .str td),
        ("score", match ts with | none => J.null | some q => .num q),
        ("cases_total", .int tct), ("case_failures", .int tcf),
        ("case_results", .arr (tcrs.map CaseResult.toJ))] "direction" = .str td
    from by with_unfolding_all rfl]
  rw [requireNonEmptyStr_mk td _ hdir_facts.1 hdir_facts.2.1]
  dsimp only
  rw [if_neg hdir_facts.2.2]
  rw [show jGetD [("task_id", J.str tid), ("metric", .str tm), ("direction", .str td),
        ("score", match ts with | none => J.null | some q => .num q),
        ("cases_total", .int tct), ("case_failures", .int tcf),
        ("case_results", .arr (tcrs.map CaseResult.toJ))] "score" =
      (match ts with | none => J.null | some q => .num q)
    from by with_unfolding_all rfl]
  rw [show requireOptionalFiniteNumber
      (match ts with | none => J.null | some q => .num q)
      (source ++ ".task_results[" ++ toString idx ++ "]" ++ ".score") = .ok ts
    from by cases ts <;> rfl]
  dsimp only
  rw [show jGetD [("task_id", J.str tid), ("metric", .str tm), ("direction", .str td),
        ("score", match ts with | none => J.null | some q => .num q),
        ("cases_total", .int tct), ("case_failures", .int tcf),
        ("case_results", .arr (tcrs.map CaseResult.toJ))] "cases_total" = .int tct
    from by with_unfolding_all rfl]
  rw [requireNonNegativeInt_mk tct _]
  dsimp only
  rw [show jGetD [("task_id", J.str tid), ("metric", .str tm), ("direction", .str td),
        ("score", match ts with | none => J.null | some q => .num q),
        ("cases_total", .int tct), ("case_failures", .int tcf),
        ("case_results", .arr (tcrs.map CaseResult.toJ))] "case_failures" = .int tcf
    from by with_unfolding_all rfl]
  rw [requireNonNegativeInt_mk tcf _]
  dsimp only
  rw [if_neg (by
    rw [hcf, hct]
    exact not_lt.mpr (List.countP_le_length _))]
  rw [show jGetD [("task_id", J.str tid), ("metric", .str tm), ("direction", .str td),
        ("score", match ts with | none => J.null | some q => .num q),
        ("cases_total", .int tct), ("case_failures", .int tcf),
        ("case_results", .arr (tcrs.map CaseResult.toJ))] "case_results" =
      .arr (tcrs.map CaseResult.toJ)
    from by with_unfolding_all rfl]
  rw [show requireList (J.arr (tcrs.map CaseResult.toJ))
      (source ++ ".task_results[" ++ toString idx ++ "]" ++ ".case_results") =
    .ok (tcrs.map CaseResult.toJ) from rfl]
  dsimp only
  rw [if_neg (by
    rw [List.length_map, hct]
    exact fun hne => hne rfl)]
  rw [validateCases_toJ _ tcrs 0 [] 0 hcases hnodup (by simp)]
  dsimp only
  rw [if_neg (by
    rw [hcf]
    simp)]
  cases ts <;> rfl

/-- `_require_non_empty_str` on a string literal returns its stripped form
whenever that is non-blank. -/
theorem requireNonEmptyStr_trim (s path : String) (h : s.trim ≠ "") :
    requireNonEmptyStr (.str s) path = .ok s.trim := by
  unfold requireNonEmptyStr
  dsimp only
  rw [if_neg h]

theorem idSetEq_refl (xs : List String) : idSetEq xs xs = true := by
  unfold idSetEq
  rw [Bool.and_eq_true]
  constructor <;> · rw [List.all_eq_true]
                    intro x hx
                    simpa using hx

theorem map_eq_of_forall₂ {α β γ : Type} {R : α → β → Prop} {f : α → γ}
    {g : β → γ} :
    ∀ {xs : List α} {ys : List β}, List.Forall₂ R xs ys →
      (∀ x y, R x y → f x = g y) → xs.map f = ys.map g
  | _, _, List.Forall₂.nil, _ => rfl
  | _, _, List.Forall₂.cons hxy hrest, hfg => by
      dsimp only [List.map]
      rw [hfg _ _ hxy, map_eq_of_forall₂ hrest hfg]

theorem runTask_ok_spec (sq : ℚ → ℚ) (task : BenchmarkTask)
    (adapter : ModelAdapter) (tr : TaskResult)
    (h : runTask sq task adapter = .ok tr) :
    tr.task_id = task.task_id ∧ tr.metric = task.metric ∧
    metricDirection task.metric = .ok tr.direction ∧
    tr.cases_total = task.cases.length ∧
    tr.case_results = (task.cases.map (runCase task adapter)).map (fun o => o.1) ∧
    tr.case_failures = tr.case_results.countP (fun r => r.error.isSome) := by
  unfold runTask at h
  dsimp only at h
  split at h
  · exact Except.noConfusion h
  split at h
  · exact Except.noConfusion h
  rename_i score hscore direction hdir
  cases Except.ok.inj h
  exact ⟨rfl, rfl, hdir, rfl, rfl, rfl⟩

theorem runTasks_forall₂ (sq : ℚ → ℚ) (adapter : ModelAdapter) :
    ∀ (tasks : List BenchmarkTask) (trs : List TaskResult),
      runTasks sq adapter tasks = .ok trs →
      List.Forall₂ (fun t tr => runTask sq t adapter = .ok tr) tasks trs
  | [], trs, h => by
      unfold runTasks at h
      cases Except.ok.inj h
      exact List.Forall₂.nil
  | task :: rest, trs, h => by
      unfold runTasks at h
      cases h1 : runTask sq task adapter <;> rw [h1] at h
      · exact Except.noConfusion h
      dsimp only at h
      cases h2 : runTasks sq adapter rest <;> rw [h2] at h
      · exact Except.noConfusion h
      cases Except.ok.inj h
      exact List.Forall₂.cons h1 (runTasks_forall₂ sq adapter rest _ h2)

/-- The field list underlying `CaseResult.toJ` (so that `requireMapping`
returns it definitionally). -/
def cFields (c : CaseResult) : List (String × J) :=
  [("case_id", .str c.case_id), ("expected", c.expected),
   ("predicted", c.predicted), ("duration_ms", .num c.duration_ms),
   ("error", match c.error with | none => .null | some e => .str e)]

/-- The field list underlying `TaskResult.toJ`. -/
def trFields (t : TaskResult) : List (String × J) :=
  [("task_id", .str t.task_id), ("metric", .str t.metric),
   ("direction", .str t.direction),
   ("score", match t.score with | none => .null | some q => .num q),
   ("cases_total", .int t.cases_total), ("case_failures", .int t.case_failures),
   ("case_results", .arr (t.case_results.map CaseResult.toJ))]

/-- The `TaskCheck` the validator records for a serialised `TaskResult`. -/
def trCheck (t : TaskResult) : TaskCheck :=
  { task_id := t.task_id, fields := trFields t,
    score_is_null := t.score.isNone, cases_total := t.cases_total,
    case_failures := t.case_failures }

theorem requireMapping_caseToJ (c : CaseResult) (path : String) :
    requireMapping (CaseResult.toJ c) path = .ok (cFields c) := rfl

theorem requireMapping_trToJ (t : TaskResult) (path : String) :
    requireMapping (TaskResult.toJ t) path = .ok (trFields t) := rfl

theorem jGetD_cFields_case_id (c : CaseResult) :
    jGetD (cFields c) "case_id" = .str c.case_id := by
  with_unfolding_all rfl

theorem jGetD_trFields_metric (t : TaskResult) :
    jGetD (trFields t) "metric" = .str t.metric := by
  with_unfolding_all rfl

theorem jGetD_trFields_direction (t : TaskResult) :
    jGetD (trFields t) "direction" = .str t.direction := by
  with_unfolding_all rfl

theorem jGetD_trFields_case_results (t : TaskResult) :
    jGetD (trFields t) "case_results" =
      .arr (t.case_results.map CaseResult.toJ) := by
  with_unfolding_all rfl

theorem jGetD_trFields_cases_total (t : TaskResult) :
    jGetD (trFields t) "cases_total" = .int t.cases_total := by
  with_unfolding_all rfl

theorem collectCaseIds_toJ (source taskId : String) :
    ∀ (crs : List CaseResult) (idx : ℕ),
      (∀ c ∈ crs, c.case_id.trim = c.case_id ∧ c.case_id ≠ "") →
      collectCaseIds source taskId (crs.map CaseResult.toJ) idx =
        .ok (crs.map (fun c => c.case_id))
  | [], _, _ => rfl
  | c :: rest, idx, hgood => by
      obtain ⟨hct, hcn⟩ := hgood c (List.mem_cons_self c rest)
      unfold collectCaseIds
      dsimp only [List.map]
      rw [requireMapping_caseToJ]
      dsimp only
      rw [jGetD_cFields_case_id, requireNonEmptyStr_mk c.case_id _ hct hcn]
      dsimp only
      rw [collectCaseIds_toJ source taskId rest (idx + 1)
        (fun c2 h2 => hgood c2 (List.mem_cons_of_mem c h2))]

theorem alignTask_toJ (source : String) (t : BenchmarkTask) (tr : TaskResult)
    (hm : tr.metric = t.metric)
    (hdir : metricDirection tr.metric = .ok tr.direction)
    (hct : tr.cases_total = t.cases.length)
    (hids : tr.case_results.map (fun c => c.case_id) =
      t.cases.map (fun c => c.case_id))
    (hcase : ∀ c ∈ tr.case_results, c.case_id.trim = c.case_id ∧
      c.case_id ≠ "") :
    alignTask source t (trFields tr) = .ok () := by
  have hmfacts : tr.metric.trim = tr.metric ∧ tr.metric ≠ "" := by
    rcases metricDirection_ok_cases hdir with ⟨h1, _⟩ | ⟨h1, _⟩ | ⟨h1, _⟩ |
      ⟨h1, _⟩ | ⟨h1, _⟩ <;> rw [h1] <;>
      exact ⟨by with_unfolding_all rfl, by with_unfolding_all decide⟩
  have hdfacts : tr.direction.trim = tr.direction ∧ tr.direction ≠ "" := by
    rcases metricDirection_ok_cases hdir with ⟨_, h1⟩ | ⟨_, h1⟩ | ⟨_, h1⟩ |
      ⟨_, h1⟩ | ⟨_, h1⟩ <;> rw [h1] <;>
      exact ⟨by with_unfolding_all rfl, by with_unfolding_all decide⟩
  unfold alignTask
  dsimp only
  rw [jGetD_trFields_metric, requireNonEmptyStr_mk tr.metric _ hmfacts.1 hmfacts.2]
  dsimp only
  rw [if_neg (fun hne => hne hm)]
  rw [jGetD_trFields_direction,
    requireNonEmptyStr_mk tr.direction _ hdfacts.1 hdfacts.2]
  dsimp only
  rw [show metricDirection t.metric = .ok tr.direction from by
    rw [← hm]; exact hdir]
  dsimp only
  rw [if_neg (fun hne => hne rfl)]
  rw [jGetD_trFields_case_results]
  rw [show requireList (J.arr (tr.case_results.map CaseResult.toJ))
      (source ++ ".task_results[" ++ t.task_id ++ "]" ++ ".case_results") =
    .ok (tr.case_results.map CaseResult.toJ) from rfl]
  dsimp only
  rw [collectCaseIds_toJ source t.task_id tr.case_results 0 hcase]
  dsimp only
  rw [hids, idSetEq_refl]
  rw [if_neg (by decide)]
  rw [jGetD_trFields_cases_total, requireNonNegativeInt_mk tr.cases_total _]
  dsimp only
  rw [if_neg (fun hne => hne hct)]

theorem alignTasks_ok (source : String) (checks : List TaskCheck) :
    ∀ tasks : List BenchmarkTask,
      (∀ t ∈ tasks, ∃ ch, checks.find? (fun c => c.task_id == t.task_id) =
        some ch ∧ alignTask source t ch.fields = .ok ()) →
      alignTasks source checks tasks = .ok ()
  | [], _ => rfl
  | t :: rest, h => by
      obtain ⟨ch, hfind, halign⟩ := h t (List.mem_cons_self t rest)
      unfold alignTasks
      rw [hfind]
      dsimp only
      rw [halign]
      dsimp only
      exact alignTasks_ok source checks rest
        (fun t2 h2 => h t2 (List.mem_cons_of_mem t h2))

theorem find_trCheck (sq : ℚ → ℚ) (adapter : ModelAdapter) :
    ∀ (tasks : List BenchmarkTask) (trs : List TaskResult),
      List.Forall₂ (fun t tr => runTask sq t adapter = .ok tr) tasks trs →
      (tasks.map (fun t => t.task_id)).Nodup →
      ∀ t ∈ tasks, ∃ tr, runTask sq t adapter = .ok tr ∧
        (trs.map trCheck).find? (fun c => c.task_id == t.task_id) =
          some (trCheck tr)
  | [], _, _, _ => by
      intro t ht
      exact absurd ht (List.not_mem_nil t)
  | task :: rest, trs, hfa, hnodup => by
      intro t ht
      cases hfa with
      | cons hhead htail =>
        rename_i tr' trs'
        rcases List.mem_cons.mp ht with rfl | hmem
        · refine ⟨tr', hhead, ?_⟩
          have hid : tr'.task_id = t.task_id := (runTask_ok_spec _ _ _ _ hhead).1
          rw [List.map_cons]
          rw [List.find?_cons_of_pos _ (by
            dsimp only [trCheck]
            rw [hid]
            exact beq_self_eq_true _)]
        · have hid' : tr'.task_id = task.task_id :=
            (runTask_ok_spec _ _ _ _ hhead).1
          have hnd : (∀ x ∈ rest, x.task_id ≠ task.task_id) ∧
              (rest.map (fun t => t.task_id)).Nodup := by
            simpa using hnodup
          have hne : task.task_id ≠ t.task_id := by
            intro heq
            exact hnd.1 t hmem heq.symm
          obtain ⟨tr, htr, hfind⟩ :=
            find_trCheck sq adapter rest trs' htail hnd.2 t hmem
          refine ⟨tr, htr, ?_⟩
          rw [List.map_cons]
          rw [List.find?_cons_of_neg _ (by
            dsimp only [trCheck]
            rw [hid']
            simp
            exact hne), hfind]

/-- The properties of a `TaskResult` that make its serialisation pass the
per-task structural validation. -/
def goodTaskResult (tr : TaskResult) : Prop :=
  tr.task_id.trim = tr.task_id ∧ tr.task_id ≠ "" ∧
  metricDirection tr.metric = .ok tr.direction ∧
  tr.cases_total = tr.case_results.length ∧
  tr.case_failures = tr.case_results.countP (fun c => c.error.isSome) ∧
  (∀ c ∈ tr.case_results, c.case_id.trim = c.case_id ∧ c.case_id ≠ "" ∧
    (0 : ℚ) ≤ c.duration_ms) ∧
  (tr.case_results.map (fun c => c.case_id)).Nodup

theorem validateTasks_toJ (source : String) :
    ∀ (trs : List TaskResult) (idx : ℕ) (seen : List String),
      (∀ tr ∈ trs, goodTaskResult tr) →
      (trs.map (fun tr => tr.task_id)).Nodup →
      (∀ tr ∈ trs, tr.task_id ∉ seen) →
      validateTasks source (trs.map TaskResult.toJ) idx seen =
        .ok (trs.map trCheck)
  | [], _, _, _, _, _ => rfl
  | tr :: rest, idx, seen, hgood, hnodup, hseen => by
      obtain ⟨h1, h2, h3, h4, h5, h6, h7⟩ := hgood tr (List.mem_cons_self tr rest)
      have hcontains : seen.contains tr.task_id = false := by
        simpa using hseen tr (List.mem_cons_self tr rest)
      have hheadnotin : tr.task_id ∉ rest.map (fun t => t.task_id) :=
        (List.nodup_cons.mp (by simpa using hnodup)).1
      have hrestnodup : (rest.map (fun t => t.task_id)).Nodup :=
        (List.nodup_cons.mp (by simpa using hnodup)).2
      have hrestgood : ∀ t2 ∈ rest, goodTaskResult t2 :=
        fun t2 h2 => hgood t2 (List.mem_cons_of_mem tr h2)
      have hrestseen : ∀ t2 ∈ rest, t2.task_id ∉ (tr.task_id :: seen) := by
        intro t2 h2 hmem
        rcases List.mem_cons.mp hmem with heq | hmem2
        · exact hheadnotin (heq ▸ List.mem_map_of_mem _ h2)
        · exact hseen t2 (List.mem_cons_of_mem tr h2) hmem2
      unfold validateTasks
      dsimp only [List.map]
      rw [validateTask_toJ source tr idx seen h1 h2 hcontains h3 h4 h5 h6 h7]
      dsimp only
      rw [validateTasks_toJ source rest (idx + 1) (tr.task_id :: seen)
        hrestgood hrestnodup hrestseen]
      rfl

/-- Structural phase of `validate_run_artifact` on a well-typed top-level
object: it reduces to the cross-consistency phase. -/
theorem validateRunArtifact_fields (source : String)
    (suiteO : Option BenchmarkSuite) (rid sname sver aname sat fat : String)
    (stt stwe sct scf : ℕ) (sacs : Bool) (trsJ : List J)
    (prov : List (String × J)) (checks : List TaskCheck)
    (hrid : rid.trim ≠ "") (hsn : sname.trim ≠ "") (hsv : sver.trim ≠ "")
    (han : aname.trim ≠ "") (hsat : sat.trim ≠ "") (hfat : fat.trim ≠ "")
    (htasks : validateTasks source trsJ 0 [] = .ok checks) :
    validateRunArtifact
      (J.obj [("run_id", J.str rid), ("suite_name", J.str sname),
      ("suite_version", J.str sver), ("adapter", J.str aname),
      ("started_at", J.str sat), ("finished_at", J.str fat),
      ("summary", J.obj [("tasks_total", J.int (stt : ℤ)),
        ("tasks_with_errors", J.int (stwe : ℤ)),
        ("cases_total", J.int (sct : ℤ)),
        ("case_failures", J.int (scf : ℤ)),
        ("all_cases_succeeded", J.bool sacs)]),
      ("task_results", J.arr trsJ), ("provenance", J.obj prov)]) source suiteO =
    validateCross [("run_id", J.str rid), ("suite_name", J.str sname),
      ("suite_version", J.str sver), ("adapter", J.str aname),
      ("started_at", J.str sat), ("finished_at", J.str fat),
      ("summary", J.obj [("tasks_total", J.int (stt : ℤ)),
        ("tasks_with_errors", J.int (stwe : ℤ)),
        ("cases_total", J.int (sct : ℤ)),
        ("case_failures", J.int (scf : ℤ)),
        ("all_cases_succeeded", J.bool sacs)]),
      ("task_results", J.arr trsJ), ("provenance", J.obj prov)]
      source suiteO sname.trim sver.trim stt stwe sct scf sacs trsJ checks := by
  unfold validateRunArtifact
  rw [show requireMapping
      (J.obj [("run_id", J.str rid), ("suite_name", J.str sname),
      ("suite_version", J.str sver), ("adapter", J.str aname),
      ("started_at", J.str sat), ("finished_at", J.str fat),
      ("summary", J.obj [("tasks_total", J.int (stt : ℤ)),
        ("tasks_with_errors", J.int (stwe : ℤ)),
        ("cases_total", J.int (sct : ℤ)),
        ("case_failures", J.int (scf : ℤ)),
        ("all_cases_succeeded", J.bool sacs)]),
      ("task_results", J.arr trsJ), ("provenance", J.obj prov)]) source =
    .ok [("run_id", J.str rid), ("suite_name", J.str sname),
      ("suite_version", J.str sver), ("adapter", J.str aname),
      ("started_at", J.str sat), ("finished_at", J.str fat),
      ("summary", J.obj [("tasks_total", J.int (stt : ℤ)),
        ("tasks_with_errors", J.int (stwe : ℤ)),
        ("cases_total", J.int (sct : ℤ)),
        ("case_failures", J.int (scf : ℤ)),
        ("all_cases_succeeded", J.bool sacs)]),
      ("task_results", J.arr trsJ), ("provenance", J.obj prov)] from rfl]
  dsimp only
  rw [keySet_top]
  dsimp only
  rw [show jGetD [("run_id", J.str rid), ("suite_name", J.str sname),
      ("suite_version", J.str sver), ("adapter", J.str aname),
      ("started_at", J.str sat), ("finished_at", J.str fat),
      ("summary", J.obj [("tasks_total", J.int (stt : ℤ)),
        ("tasks_with_errors", J.int (stwe : ℤ)),
        ("cases_total", J.int (sct : ℤ)),
        ("case_failures", J.int (scf : ℤ)),
        ("all_cases_succeeded", J.bool sacs)]),
      ("task_results", J.arr trsJ), ("provenance", J.obj prov)] "run_id" = J.str rid from by with_unfolding_all rfl]
  rw [show jGetD [("run_id", J.str rid), ("suite_name", J.str sname),
      ("suite_version", J.str sver), ("adapter", J.str aname),
      ("started_at", J.str sat), ("finished_at", J.str fat),
      ("summary", J.obj [("tasks_total", J.int (stt : ℤ)),
        ("tasks_with_errors", J.int (stwe : ℤ)),
        ("cases_total", J.int (sct : ℤ)),
        ("case_failures", J.int (scf : ℤ)),
        ("all_cases_succeeded", J.bool sacs)]),
      ("task_results", J.arr trsJ), ("provenance", J.obj prov)] "suite_name" = J.str sname from by with_unfolding_all rfl]
  rw [show jGetD [("run_id", J.str rid), ("suite_name", J.str sname),
      ("suite_version", J.str sver), ("adapter", J.str aname),
      ("started_at", J.str sat), ("finished_at", J.str fat),
      ("summary", J.obj [("tasks_total", J.int (stt : ℤ)),
        ("tasks_with_errors", J.int (stwe : ℤ)),
        ("cases_total", J.int (sct : ℤ)),
        ("case_failures", J.int (scf : ℤ)),
        ("all_cases_succeeded", J.bool sacs)]),
      ("task_results", J.arr trsJ), ("provenance", J.obj prov)] "suite_version" = J.str sver from by with_unfolding_all rfl]
  rw [requireNonEmptyStr_trim rid _ hrid, requireNonEmptyStr_trim sname _ hsn,
    requireNonEmptyStr_trim sver _ hsv]
  dsimp only
  rw [show jGetD [("run_id", J.str rid), ("suite_name", J.str sname),
      ("suite_version", J.str sver), ("adapter", J.str aname),
      ("started_at", J.str sat), ("finished_at", J.str fat),
      ("summary", J.obj [("tasks_total", J.int (stt : ℤ)),
        ("tasks_with_errors", J.int (stwe : ℤ)),
        ("cases_total", J.int (sct : ℤ)),
        ("case_failures", J.int (scf : ℤ)),
        ("all_cases_succeeded", J.bool sacs)]),
      ("task_results", J.arr trsJ), ("provenance", J.obj prov)] "adapter" = J.str aname from by with_unfolding_all rfl]
  rw [show jGetD [("run_id", J.str rid), ("suite_name", J.str sname),
      ("suite_version", J.str sver), ("adapter", J.str aname),
      ("started_at", J.str sat), ("finished_at", J.str fat),
      ("summary", J.obj [("tasks_total", J.int (stt : ℤ)),
        ("tasks_with_errors", J.int (stwe : ℤ)),
        ("cases_total", J.int (sct : ℤ)),
        ("case_failures", J.int (scf : ℤ)),
        ("all_cases_succeeded", J.bool sacs)]),
      ("task_results", J.arr trsJ), ("provenance", J.obj prov)] "started_at" = J.str sat from by with_unfolding_all rfl]
  rw [show jGetD [("run_id", J.str rid), ("suite_name", J.str sname),
      ("suite_version", J.str sver), ("adapter", J.str aname),
      ("started_at", J.str sat), ("finished_at", J.str fat),
      ("summary", J.obj [("tasks_total", J.int (stt : ℤ)),
        ("tasks_with_errors", J.int (stwe : ℤ)),
        ("cases_total", J.int (sct : ℤ)),
        ("case_failures", J.int (scf : ℤ)),
        ("all_cases_succeeded", J.bool sacs)]),
      ("task_results", J.arr trsJ), ("provenance", J.obj prov)] "finished_at" = J.str fat from by with_unfolding_all rfl]
  rw [requireNonEmptyStr_trim aname _ han, requireNonEmptyStr_trim sat _ hsat,
    requireNonEmptyStr_trim fat _ hfat]
  dsimp only
  rw [show jGetD [("run_id", J.str rid), ("suite_name", J.str sname),
      ("suite_version", J.str sver), ("adapter", J.str aname),
      ("started_at", J.str sat), ("finished_at", J.str fat),
      ("summary", J.obj [("tasks_total", J.int (stt : ℤ)),
        ("tasks_with_errors", J.int (stwe : ℤ)),
        ("cases_total", J.int (sct : ℤ)),
        ("case_failures", J.int (scf : ℤ)),
        ("all_cases_succeeded", J.bool sacs)]),
      ("task_results", J.arr trsJ), ("provenance", J.obj prov)] "summary" = J.obj [("tasks_total", J.int (stt : ℤ)),
      ("tasks_with_errors", J.int (stwe : ℤ)),
      ("cases_total", J.int (sct : ℤ)),
      ("case_failures", J.int (scf : ℤ)),
      ("all_cases_succeeded", J.bool sacs)] from by with_unfolding_all rfl]
  rw [show requireMapping (J.obj [("tasks_total", J.int (stt : ℤ)),
      ("tasks_with_errors", J.int (stwe : ℤ)),
      ("cases_total", J.int (sct : ℤ)),
      ("case_failures", J.int (scf : ℤ)),
      ("all_cases_succeeded", J.bool sacs)]) (source ++ ".summary") =
    .ok [("tasks_total", J.int (stt : ℤ)),
      ("tasks_with_errors", J.int (stwe : ℤ)),
      ("cases_total", J.int (sct : ℤ)),
      ("case_failures", J.int (scf : ℤ)),
      ("all_cases_succeeded", J.bool sacs)] from rfl]
  dsimp only
  rw [keySet_summary]
  dsimp only
  rw [show jGetD [("tasks_total", J.int (stt : ℤ)),
      ("tasks_with_errors", J.int (stwe : ℤ)),
      ("cases_total", J.int (sct : ℤ)),
      ("case_failures", J.int (scf : ℤ)),
      ("all_cases_succeeded", J.bool sacs)] "tasks_total" = J.int (stt : ℤ) from by with_unfolding_all rfl]
  rw [show jGetD [("tasks_total", J.int (stt : ℤ)),
      ("tasks_with_errors", J.int (stwe : ℤ)),
      ("cases_total", J.int (sct : ℤ)),
      ("case_failures", J.int (scf : ℤ)),
      ("all_cases_succeeded", J.bool sacs)] "tasks_with_errors" = J.int (stwe : ℤ) from by with_unfolding_all rfl]
  rw [show jGetD [("tasks_total", J.int (stt : ℤ)),
      ("tasks_with_errors", J.int (stwe : ℤ)),
      ("cases_total", J.int (sct : ℤ)),
      ("case_failures", J.int (scf : ℤ)),
      ("all_cases_succeeded", J.bool sacs)] "cases_total" = J.int (sct : ℤ) from by with_unfolding_all rfl]
  rw [show jGetD [("tasks_total", J.int (stt : ℤ)),
      ("tasks_with_errors", J.int (stwe : ℤ)),
      ("cases_total", J.int (sct : ℤ)),
      ("case_failures", J.int (scf : ℤ)),
      ("all_cases_succeeded", J.bool sacs)] "case_failures" = J.int (scf : ℤ) from by with_unfolding_all rfl]
  rw [show jGetD [("tasks_total", J.int (stt : ℤ)),
      ("tasks_with_errors", J.int (stwe : ℤ)),
      ("cases_total", J.int (sct : ℤ)),
      ("case_failures", J.int (scf : ℤ)),
      ("all_cases_succeeded", J.bool sacs)] "all_cases_succeeded" = J.bool sacs from by with_unfolding_all rfl]
  rw [requireNonNegativeInt_mk stt _, requireNonNegativeInt_mk stwe _,
    requireNonNegativeInt_mk sct _, requireNonNegativeInt_mk scf _]
  rw [show requireBool (J.bool sacs) (source ++ ".summary.all_cases_succeeded") =
    .ok sacs from rfl]
  dsimp only
  rw [show jGetD [("run_id", J.str rid), ("suite_name", J.str sname),
      ("suite_version", J.str sver), ("adapter", J.str aname),
      ("started_at", J.str sat), ("finished_at", J.str fat),
      ("summary", J.obj [("tasks_total", J.int (stt : ℤ)),
        ("tasks_with_errors", J.int (stwe : ℤ)),
        ("cases_total", J.int (sct : ℤ)),
        ("case_failures", J.int (scf : ℤ)),
        ("all_cases_succeeded", J.bool sacs)]),
      ("task_results", J.arr trsJ), ("provenance", J.obj prov)] "task_results" = J.arr trsJ from by with_unfolding_all rfl]
  rw [show requireList (J.arr trsJ) (source ++ ".task_results") = .ok trsJ
    from rfl]
  dsimp only
  rw [show jGetD [("run_id", J.str rid), ("suite_name", J.str sname),
      ("suite_version", J.str sver), ("adapter", J.str aname),
      ("started_at", J.str sat), ("finished_at", J.str fat),
      ("summary", J.obj [("tasks_total", J.int (stt : ℤ)),
        ("tasks_with_errors", J.int (stwe : ℤ)),
        ("cases_total", J.int (sct : ℤ)),
        ("case_failures", J.int (scf : ℤ)),
        ("all_cases_succeeded", J.bool sacs)]),
      ("task_results", J.arr trsJ), ("provenance", J.obj prov)] "provenance" = J.obj prov from by with_unfolding_all rfl]
  rw [show requireMapping (J.obj prov) (source ++ ".provenance") = .ok prov
    from rfl]
  dsimp only
  rw [htasks]

theorem forall₂_mem_right {α β : Type} {R : α → β → Prop} :
    ∀ {xs : List α} {ys : List β}, List.Forall₂ R xs ys →
      ∀ y ∈ ys, ∃ x ∈ xs, R x y
  | _, _, List.Forall₂.nil => fun y hy => absurd hy (List.not_mem_nil y)
  | _, _, List.Forall₂.cons h t => fun y hy => by
      rcases List.mem_cons.mp hy with rfl | hy2
      · exact ⟨_, List.mem_cons_self _ _, h⟩
      · obtain ⟨x, hx, hr⟩ := forall₂_mem_right t y hy2
        exact ⟨x, List.mem_cons_of_mem _ hx, hr⟩

theorem runTask_caseIds (sq : ℚ → ℚ) (t : BenchmarkTask)
    (adapter : ModelAdapter) (tr : TaskResult)
    (h : runTask sq t adapter = .ok tr) :
    tr.case_results.map (fun c => c.case_id) =
      t.cases.map (fun c => c.case_id) := by
  obtain ⟨_, _, _, _, hcrs, _⟩ := runTask_ok_spec sq t adapter tr h
  rw [hcrs, List.map_map, List.map_map]
  exact List.map_congr_left (fun bc _ => (runCase_fields t adapter bc).1)

theorem runTask_caseGood (sq : ℚ → ℚ) (t : BenchmarkTask)
    (adapter : ModelAdapter) (tr : TaskResult)
    (h : runTask sq t adapter = .ok tr) (hgt : goodTask t) :
    ∀ c ∈ tr.case_results, c.case_id.trim = c.case_id ∧ c.case_id ≠ "" ∧
      (0 : ℚ) ≤ c.duration_ms := by
  obtain ⟨_, _, _, _, hcrs, _⟩ := runTask_ok_spec sq t adapter tr h
  intro c hc
  rw [hcrs, List.map_map] at hc
  obtain ⟨bc, hbc, rfl⟩ := List.mem_map.mp hc
  obtain ⟨hcid, hcdur⟩ := runCase_fields t adapter bc
  obtain ⟨hb1, hb2⟩ := hgt.2.2.2 bc hbc
  refine ⟨?_, ?_, ?_⟩
  · show (runCase t adapter bc).1.case_id.trim = (runCase t adapter bc).1.case_id
    rw [hcid]
    exact hb1
  · show (runCase t adapter bc).1.case_id ≠ ""
    rw [hcid]
    exact hb2
  · show (0 : ℚ) ≤ (runCase t adapter bc).1.duration_ms
    rw [hcdur]

theorem runTask_goodTaskResult (sq : ℚ → ℚ) (t : BenchmarkTask)
    (adapter : ModelAdapter) (tr : TaskResult)
    (h : runTask sq t adapter = .ok tr) (hgt : goodTask t) :
    goodTaskResult tr := by
  obtain ⟨hids, hm, hd, hct, hcrs, hcf⟩ := runTask_ok_spec sq t adapter tr h
  refine ⟨?_, ?_, ?_, ?_, hcf, runTask_caseGood sq t adapter tr h hgt, ?_⟩
  · rw [hids]
    exact hgt.1
  · rw [hids]
    exact hgt.2.1
  · rw [hm]
    exact hd
  · rw [hct, hcrs]
    simp
  · rw [runTask_caseIds sq t adapter tr h]
    exact hgt.2.2.1

/-- C3 (amended): for a suite shaped as the loader produces it (stripped,
non-blank, duplicate-free identifiers), an adapter whose name is non-blank
after stripping, and non-blank run identifier and timestamps, every run
record produced by `run_benchmark` is accepted by `validate_run_artifact`
against the same suite. -/
theorem run_validate_roundtrip (sq : ℚ → ℚ)
    (runId startedAt finishedAt source : String) (suite : BenchmarkSuite)
    (adapter : ModelAdapter) (prov : List (String × J)) (record : BenchmarkRun)
    (hsuite : goodSuite suite)
    (han : adapter.name.trim ≠ "") (hrid : runId.trim ≠ "")
    (hsat : startedAt.trim ≠ "") (hfat : finishedAt.trim ≠ "")
    (hrun : runBenchmark sq runId startedAt finishedAt suite adapter prov =
      .ok record) :
    ∃ out, validateRunArtifact record.toJ source (some suite) = .ok out := by
  obtain ⟨hn1, hn2, hv1, hv2, hnodupT, hgoodT⟩ := hsuite
  unfold runBenchmark at hrun
  split at hrun
  · exact Except.noConfusion hrun
  rename_i trs heq
  dsimp only at hrun
  cases Except.ok.inj hrun
  have hfa := runTasks_forall₂ sq adapter suite.tasks trs heq
  have htrGood : ∀ tr ∈ trs, goodTaskResult tr := by
    intro tr htr
    obtain ⟨t, htm, hok⟩ := forall₂_mem_right hfa tr htr
    exact runTask_goodTaskResult sq t adapter tr hok (hgoodT t htm)
  have hidseq : trs.map (fun tr => tr.task_id) =
      suite.tasks.map (fun t => t.task_id) :=
    (map_eq_of_forall₂ hfa (fun t tr h2 =>
      ((runTask_ok_spec sq t adapter tr h2).1).symm)).symm
  have hnodupTrs : (trs.map (fun tr => tr.task_id)).Nodup := by
    rw [hidseq]
    exact hnodupT
  have htasksok : validateTasks source (trs.map TaskResult.toJ) 0 [] =
      .ok (trs.map trCheck) :=
    validateTasks_toJ source trs 0 [] htrGood hnodupTrs (by simp)
  have hsn : suite.name.trim ≠ "" := by
    rw [hn1]
    exact hn2
  have hsv : suite.version.trim ≠ "" := by
    rw [hv1]
    exact hv2
  have halign : validateSuiteAlignment suite source suite.name.trim
      suite.version.trim (trs.map trCheck) = .ok () := by
    unfold validateSuiteAlignment
    rw [hn1, hv1]
    rw [if_neg (fun hne => hne rfl), if_neg (fun hne => hne rfl)]
    rw [show (trs.map trCheck).map (fun c => c.task_id) =
        suite.tasks.map (fun t => t.task_id) from by
      rw [List.map_map]
      exact hidseq]
    rw [idSetEq_refl]
    rw [if_neg (by decide)]
    refine alignTasks_ok source (trs.map trCheck) suite.tasks ?_
    intro t ht
    obtain ⟨tr, hok, hfind⟩ :=
      find_trCheck sq adapter suite.tasks trs hfa hnodupT t ht
    refine ⟨trCheck tr, hfind, ?_⟩
    obtain ⟨hids, hm, hd, hct, hcrs, hcf⟩ := runTask_ok_spec sq t adapter tr hok
    exact alignTask_toJ source t tr hm (by rw [hm]; exact hd) hct
      (runTask_caseIds sq t adapter tr hok)
      (fun c hc => ⟨(runTask_caseGood sq t adapter tr hok (hgoodT t ht) c hc).1,
        (runTask_caseGood sq t adapter tr hok (hgoodT t ht) c hc).2.1⟩)
  unfold BenchmarkRun.toJ RunSummary.toJ
  dsimp only
  rw [validateRunArtifact_fields source (some suite) runId suite.name
    suite.version adapter.name startedAt finishedAt _ _ _ _ _ _ prov _
    hrid hsn hsv han hsat hfat htasksok]
  unfold validateCross
  dsimp only
  rw [if_neg (show ¬ suite.tasks.length ≠ (trs.map TaskResult.toJ).length from
    fun hne => hne (by
      rw [List.length_map]
      exact List.Forall₂.length_eq hfa))]
  rw [if_neg (show ¬ (trs.map (fun r => r.cases_total)).sum ≠
      ((trs.map trCheck).map (fun c => c.cases_total)).sum from
    fun hne => hne (by
      rw [List.map_map]
      exact congrArg List.sum (List.map_congr_left fun tr _ => rfl)))]
  rw [if_neg (show ¬ (trs.map (fun r => r.case_failures)).sum ≠
      ((trs.map trCheck).map (fun c => c.case_failures)).sum from
    fun hne => hne (by
      rw [List.map_map]
      exact congrArg List.sum (List.map_congr_left fun tr _ => rfl)))]
  rw [if_neg (show ¬ trs.countP
        (fun r => decide (0 < r.case_failures) || r.score.isNone) ≠
      (trs.map trCheck).countP
        (fun c => decide (0 < c.case_failures) || c.score_is_null) from
    fun hne => hne (by
      rw [List.countP_map]
      exact List.countP_congr fun tr _ => Iff.rfl))]
  rw [if_neg (fun hne => hne rfl)]
  try dsimp only
  rw [halign]
  exact ⟨_, rfl⟩

/-- A one-task accuracy suite shaped exactly as the loader produces it. -/
def c3suite : BenchmarkSuite :=
  { name := "s3", version := "1", description := "",
    tasks := [{ task_id := "t1", metric := "accuracy",
                prediction_key := "value", expected_key := "value",
                cases := [{ case_id := "c1", input := [],
                            expected := [("value", .int 1)], tags := [] }] }] }

/-- An adapter that echoes the expected value under the prediction key. -/
def c3adapter : ModelAdapter :=
  { name := "golden",
    predict := fun task bc =>
      .ok [(task.prediction_key, jGetD bc.expected task.expected_key)] }

/-- The same adapter with an empty `name`: nothing in the `ModelAdapter`
protocol rules this out. -/
def c3badAdapter : ModelAdapter :=
  { name := "",
    predict := fun task bc =>
      .ok [(task.prediction_key, jGetD bc.expected task.expected_key)] }

/-- The run record `run_benchmark` produces for `c3suite` with `c3adapter`. -/
def c3record : BenchmarkRun :=
  { run_id := "r1", suite_name := "s3", suite_version := "1",
    adapter := "golden", started_at := "t0", finished_at := "t1",
    summary := { tasks_total := 1, tasks_with_errors := 0, cases_total := 1,
                 case_failures := 0, all_cases_succeeded := true },
    task_results := [{ task_id := "t1", metric := "accuracy",
                       direction := "higher", score := some 1, cases_total := 1,
                       case_failures := 0,
                       case_results := [{ case_id := "c1", expected := .int 1,
                                          predicted := .int 1, duration_ms := 0,
                                          error := none }] }],
    provenance := [] }

/-- The run record produced with the empty-named adapter. -/
def c3badRecord : BenchmarkRun :=
  { c3record with adapter := "" }

/-- C3, counterexample: the claim quantifies over every adapter, but the
adapter name is not constrained anywhere; with an adapter whose `name` is the
empty string, `run_benchmark` happily produces a run record, and
`validate_run_artifact` rejects that record at `.adapter` even against the
same suite, so the round trip raises. -/
theorem roundtrip_adapter_counterexample :
    runBenchmark (fun q => q) "r1" "t0" "t1" c3suite c3badAdapter [] =
      .ok c3badRecord ∧
    validateRunArtifact c3badRecord.toJ "run" (some c3suite) =
      .error "run.adapter must be a non-empty string" := by
  with_unfolding_all exact ⟨rfl, rfl⟩

/-- C3 witness: the amended round trip at a concrete suite, adapter and run
record. -/
theorem run_validate_roundtrip_witness :
    goodSuite c3suite ∧
    (∃ out, validateRunArtifact c3record.toJ "run" (some c3suite) = .ok out) := by
  have hg : goodSuite c3suite := by
    unfold goodSuite goodTask goodCase
    with_unfolding_all decide
  exact ⟨hg, run_validate_roundtrip (fun q => q) "r1" "t0" "t1" "run" c3suite
    c3adapter [] c3record hg (by with_unfolding_all decide)
    (by with_unfolding_all decide) (by with_unfolding_all decide)
    (by with_unfolding_all decide) (by with_unfolding_all rfl)⟩

end RefuaBench
